import Mathlib

/-!
# Query resolution of `rod` (query.go) and option parsing (lib/defaults)

A shallow embedding of the query layer: `Page.ElementByJSE`, `Page.ElementsByJSE`,
`Page.SearchE`, the `Has*` predicates and the derived queries of `Element`, together with
`defaults.parse`.

The remote side (the browser behind `EvalE`, `CallE`, `ReleaseE`) and the sleeper are
deterministic answer streams: the k-th request of a kind receives the k-th answer of that
kind.  Every request is appended to a chronological log together with its answer, so that
"how many evaluations were made" and "what was issued before what" are statements about the
log.
-/

namespace Rod

/-! ## Data model -/

/-- Modelled from the spec: the error-code constants are declared outside `src/`; these are
the codes that query.go names, each distinct, and any other code. -/
inductive ErrCode
  | ErrElementNotFound
  | ErrExpectElement
  | ErrExpectElements
  | ErrEval
  | other (name : String)
  deriving DecidableEq, Repr

/-- One argument of a `cdp.Array` or one value of a `cdp.Object`. -/
inductive Arg
  | str (s : String)
  | int (n : Int)
  | bool (b : Bool)
  deriving DecidableEq, Repr

/-- The fields that query.go reads from the `result` of an evaluation through
`Get(..).String()`; an absent field reads as the empty string.  `raw` is `val.Raw`. -/
structure RemoteObject where
  type : String
  subtype : String
  objectId : String
  raw : String
  deriving DecidableEq, Repr

/-- The `Details` field of a `rod.Error`: the script, the raw value or the value itself. -/
inductive Details
  | js (s : String)
  | raw (s : String)
  | value (v : RemoteObject)
  deriving DecidableEq, Repr

/-- A Go `error` value: either `&Error{nil, code, details}` as built in query.go, or an
error of any other type (a `cdp.Error`, `context.Canceled`, ...). -/
inductive GoError
  | rod (code : ErrCode) (details : Details)
  | foreign (msg : String)
  deriving DecidableEq, Repr

/-- Modelled from the spec: `IsError` lives in a file outside `src/`; the spec has callers
"branch on kind", so an error matches a code when it is a `rod.Error` carrying that code. -/
def IsError (err : Option GoError) (code : ErrCode) : Bool :=
  match err with
  | some (.rod c _) => c == code
  | _ => false

/-- One entry of the `result` array of `Runtime.getProperties`. -/
structure Property where
  name : String
  value : RemoteObject
  deriving DecidableEq, Repr

/-- The fields that query.go reads from the result of a `CallE`: `searchId` and
`resultCount` of `DOM.performSearch`, `result` of `Runtime.getProperties`. -/
structure CallResult where
  searchId : String
  resultCount : Int
  result : List Property
  deriving DecidableEq, Repr

/-- A `kit.Sleeper`: the answer of its k-th invocation, `none` for a nil error. -/
abbrev Sleeper := Nat → Option GoError

/-- What a Go call can end in: a normal return, a panic, or (in this model only) a loop that
is still running when the fuel is used up. -/
inductive Outcome (α : Type)
  | ret (v : α)
  | panic (msg : String)
  | fuelOut
  deriving Repr

/-- A request sent to a collaborator, recorded with the answer it received. -/
inductive Event
  | traceFn (js : String) (params : List Arg)
  | traceDone
  | waitLoad
  | eval (byValue : Bool) (thisID js : String) (params : List Arg)
      (res : Except GoError RemoteObject)
  | call (method : String) (params : List (String × Arg)) (res : Except GoError CallResult)
  | release (objectID : String) (res : Option GoError)
  | sleep (k : Nat) (res : Option GoError)

abbrev Log := List Event

/-- The remote side as answer streams: the first argument is the number of earlier requests
of the same kind. -/
structure Remote where
  evalE : Nat → Bool → String → String → List Arg → Except GoError RemoteObject
  callE : Nat → String → List (String × Arg) → Except GoError CallResult
  releaseE : Nat → String → Option GoError

/-- The parts of `Page` that query.go uses: its context, `browser.trace` and `jsFn`. -/
structure Page where
  ctx : Nat
  trace : Bool
  jsFn : String → String

structure Element where
  page : Page
  ctx : Nat
  ObjectID : String

/-- A `Search`: the page and the handler returned by `DOM.performSearch`. -/
structure Search where
  page : Page
  handler : CallResult

/-! ## Log observers -/

def Event.isEval : Event → Bool
  | .eval .. => true
  | _ => false

def Event.isCall : Event → Bool
  | .call .. => true
  | _ => false

def Event.isRelease : Event → Bool
  | .release .. => true
  | _ => false

def Event.isSleep : Event → Bool
  | .sleep .. => true
  | _ => false

def evalCount (log : Log) : Nat := log.countP Event.isEval
def callCount (log : Log) : Nat := log.countP Event.isCall
def releaseCount (log : Log) : Nat := log.countP Event.isRelease
def sleepCount (log : Log) : Nat := log.countP Event.isSleep

/-! ## Collaborators outside `src/` -/

/-- Modelled from the spec: `Page.EvalE` is outside `src/`; per the spec's `evaluate(script,
thisObjectID?, params) -> value` it is one request to the remote side. -/
def Page.EvalE (env : Remote) (_p : Page) (byValue : Bool) (thisID js : String)
    (params : List Arg) (log : Log) : Except GoError RemoteObject × Log :=
  let r := env.evalE (evalCount log) byValue thisID js params
  (r, log ++ [Event.eval byValue thisID js params r])

/-- Modelled from the spec: `Page.CallE` is outside `src/`; per the spec's `call(method,
params) -> (result, err)` it is one synchronous request. -/
def Page.CallE (env : Remote) (_p : Page) (method : String) (params : List (String × Arg))
    (log : Log) : Except GoError CallResult × Log :=
  let r := env.callE (callCount log) method params
  (r, log ++ [Event.call method params r])

/-- Modelled from the spec: `Page.ReleaseE` is outside `src/`; per the spec's
`release(objectID)` it is one disposal request. -/
def Page.ReleaseE (env : Remote) (_p : Page) (objectID : String) (log : Log) :
    Option GoError × Log :=
  let r := env.releaseE (releaseCount log) objectID
  (r, log ++ [Event.release objectID r])

/-- Modelled from the spec: `Page.WaitLoad` is outside `src/`; it is recorded as one event
and gives the page back. -/
def Page.WaitLoad (p : Page) (log : Log) : Page × Log :=
  (p, log ++ [Event.waitLoad])

/-- Modelled from the spec: `kit.Retry` is the external RetryEngine: invoke the operation;
when it reports done, return its error; otherwise ask the sleeper and return the sleeper's
error if it fails, else go round again.  `k` counts the sleeper invocations so far.  Calling
a nil sleeper is a Go nil-function call. -/
def RetryLoop {σ : Type} (sleeper : Option Sleeper)
    (fn : σ → Log → (Bool × Option GoError) × σ × Log) :
    Nat → Nat → σ → Log → Outcome (Option GoError) × σ × Log
  | 0, _, st, log => (.fuelOut, st, log)
  | fuel + 1, k, st, log =>
    match fn st log with
    | ((true, err), st1, log1) => (.ret err, st1, log1)
    | ((false, _), st1, log1) =>
      match sleeper with
      | none => (.panic "invalid memory address or nil pointer dereference", st1, log1)
      | some s =>
        match s k with
        | some e => (.ret (some e), st1, log1 ++ [Event.sleep k (some e)])
        | none => RetryLoop sleeper fn fuel (k + 1) st1 (log1 ++ [Event.sleep k none])

/-- Modelled from the spec: `kit.Retry(ctx, sleeper, fn)`, the loop above started with no
sleeper call made yet. -/
def Retry {σ : Type} (sleeper : Option Sleeper)
    (fn : σ → Log → (Bool × Option GoError) × σ × Log) (fuel : Nat) (st : σ) (log : Log) :
    Outcome (Option GoError) × σ × Log :=
  RetryLoop sleeper fn fuel 0 st log

/-! ## query.go -/

/-- The value test of `ElementByJSE`: type "object" with subtype "null". -/
def RemoteObject.isNull (v : RemoteObject) : Bool :=
  v.type == "object" && v.subtype == "null"

/-- The sleeper that `ElementByJSE` substitutes for a nil one. -/
def notFoundSleeper (js : String) : Sleeper :=
  fun _ => some (.rod .ErrElementNotFound (.js js))

def sleeperOrNotFound (sleeper : Option Sleeper) (js : String) : Sleeper :=
  match sleeper with
  | none => notFoundSleeper js
  | some s => s

/-- The closure passed to `kit.Retry` by `ElementByJSE`; the state is the captured `val`. -/
def elementByJSFn (env : Remote) (p : Page) (thisID js : String) (params : List Arg)
    (val : Option RemoteObject) (log : Log) :
    (Bool × Option GoError) × Option RemoteObject × Log :=
  match p.EvalE env false thisID js params log with
  | (.error err, log1) => ((true, some err), val, log1)
  | (.ok v, log1) =>
    if v.isNull then ((false, none), some v, log1)
    else ((true, none), some v, log1)

/-- Modelled from the spec: `Page.traceFn` is outside `src/` and the spec does not describe
it; the call `p.traceFn(js, params)` made when `p.browser.trace` is set is recorded as one
event. -/
def traceBegin (p : Page) (js : String) (params : List Arg) (log : Log) : Log :=
  if p.trace then log ++ [Event.traceFn js params] else log

/-- Modelled from the spec: the function returned by `Page.traceFn` is outside `src/`; its
deferred call, made on every return of `ElementByJSE`, is recorded as one event. -/
def traceEnd (p : Page) (log : Log) : Log :=
  if p.trace then log ++ [Event.traceDone] else log

def Page.ElementByJSE (env : Remote) (p : Page) (fuel : Nat) (sleeper : Option Sleeper)
    (thisID js : String) (params : List Arg) (log : Log) :
    Outcome (Option Element × Option GoError) × Log :=
  let sleeper := sleeperOrNotFound sleeper js
  let log0 := traceBegin p js params log
  match Retry (some sleeper) (elementByJSFn env p thisID js params) fuel none log0 with
  | (.fuelOut, _, log1) => (.fuelOut, log1)
  | (.panic m, _, log1) => (.panic m, traceEnd p log1)
  | (.ret (some err), _, log1) => (.ret (none, some err), traceEnd p log1)
  | (.ret none, none, log1) =>
    (.panic "invalid memory address or nil pointer dereference", traceEnd p log1)
  | (.ret none, some val, log1) =>
    if val.subtype != "node" then
      (.ret (none, some (.rod .ErrExpectElement (.raw val.raw))), traceEnd p log1)
    else
      (.ret (some { page := p, ctx := p.ctx, ObjectID := val.objectId }, none),
        traceEnd p log1)

/-- ElementE finds element by css selector. -/
def Page.ElementE (env : Remote) (p : Page) (fuel : Nat) (sleeper : Option Sleeper)
    (objectID selector : String) (log : Log) :
    Outcome (Option Element × Option GoError) × Log :=
  p.ElementByJSE env fuel sleeper objectID (p.jsFn "element") [.str selector] log

def Page.ElementMatchesE (env : Remote) (p : Page) (fuel : Nat) (sleeper : Option Sleeper)
    (objectID selector regex : String) (log : Log) :
    Outcome (Option Element × Option GoError) × Log :=
  p.ElementByJSE env fuel sleeper objectID (p.jsFn "elementMatches")
    [.str selector, .str regex] log

def Page.ElementXE (env : Remote) (p : Page) (fuel : Nat) (sleeper : Option Sleeper)
    (objectID xpath : String) (log : Log) :
    Outcome (Option Element × Option GoError) × Log :=
  p.ElementByJSE env fuel sleeper objectID (p.jsFn "elementX") [.str xpath] log

/-- The tail shared by the six `Has*` functions: not-found becomes `(false, nil)`, anything
else is `(err == nil, err)`. -/
def hasResult (r : Outcome (Option Element × Option GoError) × Log) :
    Outcome (Bool × Option GoError) × Log :=
  match r with
  | (.ret (_, err), log1) =>
    if IsError err .ErrElementNotFound then (.ret (false, none), log1)
    else (.ret (err.isNone, err), log1)
  | (.panic m, log1) => (.panic m, log1)
  | (.fuelOut, log1) => (.fuelOut, log1)

def Page.HasE (env : Remote) (p : Page) (fuel : Nat) (selector : String) (log : Log) :
    Outcome (Bool × Option GoError) × Log :=
  hasResult (p.ElementE env fuel none "" selector log)

def Page.HasXE (env : Remote) (p : Page) (fuel : Nat) (selector : String) (log : Log) :
    Outcome (Bool × Option GoError) × Log :=
  hasResult (p.ElementXE env fuel none "" selector log)

def Page.HasMatchesE (env : Remote) (p : Page) (fuel : Nat) (selector regex : String)
    (log : Log) : Outcome (Bool × Option GoError) × Log :=
  hasResult (p.ElementMatchesE env fuel none "" selector regex log)

/-- Count of the search results. -/
def Search.Count (s : Search) : Int := s.handler.resultCount

/-- ReleaseE remote search handler. -/
def Search.ReleaseE (env : Remote) (s : Search) (log : Log) : Option GoError × Log :=
  match s.page.CallE env "DOM.discardSearchResults" [("searchId", .str s.handler.searchId)]
      log with
  | (.error err, log1) => (some err, log1)
  | (.ok _, log1) => (none, log1)

/-- The closure passed to `kit.Retry` by `SearchE`; the state is the captured `s`. -/
def searchFn (env : Remote) (p : Page) (query : String) (deep : Bool)
    (s : Option Search) (log : Log) : (Bool × Option GoError) × Option Search × Log :=
  match p.CallE env "DOM.performSearch"
      [("query", .str query), ("includeUserAgentShadowDOM", .bool deep)] log with
  | (.error err, log1) => ((true, some err), s, log1)
  | (.ok h, log1) =>
    let s1 : Search := { page := p, handler := h }
    if s1.Count == 0 then
      match s1.ReleaseE env log1 with
      | (some err, log2) => ((true, some err), some s1, log2)
      | (none, log2) => ((false, none), some s1, log2)
    else ((true, none), some s1, log1)

def Page.SearchE (env : Remote) (p : Page) (fuel : Nat) (sleeper : Option Sleeper)
    (query : String) (deep : Bool) (log : Log) :
    Outcome (Option Search × Option GoError) × Log :=
  match (p.WaitLoad log).1.CallE env "DOM.getDocument" [] (p.WaitLoad log).2 with
  | (.error err, log1) => (.ret (none, some err), log1)
  | (.ok _, log1) =>
    match Retry sleeper (searchFn env p query deep) fuel none log1 with
    | (.fuelOut, _, log2) => (.fuelOut, log2)
    | (.panic m, _, log2) => (.panic m, log2)
    | (.ret (some err), _, log2) => (.ret (none, some err), log2)
    | (.ret none, s, log2) => (.ret (s, none), log2)

/-- The loop of `ElementsByJSE` over the enumerated properties: the collected elements, or
the first value that is not a node. -/
def collectElements (p : Page) : List Property → List Element →
    Except RemoteObject (List Element)
  | [], acc => .ok acc
  | obj :: rest, acc =>
    if obj.name == "__proto__" || obj.name == "length" then collectElements p rest acc
    else if obj.value.subtype != "node" then .error obj.value
    else collectElements p rest
      (acc ++ [{ page := p, ctx := p.ctx, ObjectID := obj.value.objectId }])

/-- ElementsByJSE is different from ElementByJSE, it doesn't do retry.  The results are
unnamed, so the deferred `err = p.ReleaseE(objectID)` runs on every exit after the array
check (also when `kit.E` panics with the error of `Runtime.getProperties`) and its answer
reaches no caller. -/
def Page.ElementsByJSE (env : Remote) (p : Page) (thisID js : String) (params : List Arg)
    (log : Log) : Outcome (Option (List Element) × Option GoError) × Log :=
  match p.EvalE env false thisID js params log with
  | (.error err, log1) => (.ret (none, some err), log1)
  | (.ok val, log1) =>
    if val.subtype != "array" then
      (.ret (none, some (.rod .ErrExpectElements (.value val))), log1)
    else
      let objectID := val.objectId
      match p.CallE env "Runtime.getProperties"
          [("objectId", .str objectID), ("ownProperties", .bool true)] log1 with
      | (.error _, log2) =>
        (.panic "kit.E: Runtime.getProperties failed", (p.ReleaseE env objectID log2).2)
      | (.ok list, log2) =>
        match collectElements p list.result [] with
        | .error bad =>
          (.ret (none, some (.rod .ErrExpectElements (.value bad))),
            (p.ReleaseE env objectID log2).2)
        | .ok elemList => (.ret (some elemList, none), (p.ReleaseE env objectID log2).2)

def Page.ElementsE (env : Remote) (p : Page) (objectID selector : String) (log : Log) :
    Outcome (Option (List Element) × Option GoError) × Log :=
  p.ElementsByJSE env objectID (p.jsFn "elements") [.str selector] log

def Page.ElementsXE (env : Remote) (p : Page) (objectID xpath : String) (log : Log) :
    Outcome (Option (List Element) × Option GoError) × Log :=
  p.ElementsByJSE env objectID (p.jsFn "elementsX") [.str xpath] log

def Element.ElementE (env : Remote) (el : Element) (fuel : Nat) (selector : String)
    (log : Log) : Outcome (Option Element × Option GoError) × Log :=
  el.page.ElementE env fuel none el.ObjectID selector log

def Element.ElementXE (env : Remote) (el : Element) (fuel : Nat) (xpath : String)
    (log : Log) : Outcome (Option Element × Option GoError) × Log :=
  el.page.ElementXE env fuel none el.ObjectID xpath log

def Element.ElementByJSE (env : Remote) (el : Element) (fuel : Nat) (js : String)
    (params : List Arg) (log : Log) : Outcome (Option Element × Option GoError) × Log :=
  el.page.ElementByJSE env fuel none el.ObjectID js params log

def Element.ParentE (env : Remote) (el : Element) (fuel : Nat) (log : Log) :
    Outcome (Option Element × Option GoError) × Log :=
  el.ElementByJSE env fuel "() => this.parentElement" [] log

def Element.NextE (env : Remote) (el : Element) (fuel : Nat) (log : Log) :
    Outcome (Option Element × Option GoError) × Log :=
  el.ElementByJSE env fuel "() => this.nextElementSibling" [] log

def Element.PreviousE (env : Remote) (el : Element) (fuel : Nat) (log : Log) :
    Outcome (Option Element × Option GoError) × Log :=
  el.ElementByJSE env fuel "() => this.previousElementSibling" [] log

def Element.ElementMatchesE (env : Remote) (el : Element) (fuel : Nat)
    (selector regex : String) (log : Log) :
    Outcome (Option Element × Option GoError) × Log :=
  el.page.ElementMatchesE env fuel none el.ObjectID selector regex log

def Element.ElementsE (env : Remote) (el : Element) (selector : String) (log : Log) :
    Outcome (Option (List Element) × Option GoError) × Log :=
  el.page.ElementsE env el.ObjectID selector log

def Element.ElementsXE (env : Remote) (el : Element) (xpath : String) (log : Log) :
    Outcome (Option (List Element) × Option GoError) × Log :=
  el.page.ElementsXE env el.ObjectID xpath log

def Element.ElementsByJSE (env : Remote) (el : Element) (js : String) (params : List Arg)
    (log : Log) : Outcome (Option (List Element) × Option GoError) × Log :=
  el.page.ElementsByJSE env el.ObjectID js params log

def Element.ParentsE (env : Remote) (el : Element) (selector : String) (log : Log) :
    Outcome (Option (List Element) × Option GoError) × Log :=
  el.ElementsByJSE env (el.page.jsFn "parents") [.str selector] log

def Element.HasE (env : Remote) (el : Element) (fuel : Nat) (selector : String)
    (log : Log) : Outcome (Bool × Option GoError) × Log :=
  hasResult (el.ElementE env fuel selector log)

def Element.HasXE (env : Remote) (el : Element) (fuel : Nat) (selector : String)
    (log : Log) : Outcome (Bool × Option GoError) × Log :=
  hasResult (el.ElementXE env fuel selector log)

def Element.HasMatchesE (env : Remote) (el : Element) (fuel : Nat) (selector regex : String)
    (log : Log) : Outcome (Bool × Option GoError) × Log :=
  hasResult (el.ElementMatchesE env fuel selector regex log)

/-! ## Observations on the log used by the statements -/

/-- Modelled from the spec: how `EvalE` picks the scope of a script is outside `src/`; the
spec evaluates "against the starting object (or the document if none)" and the comment on
`ElementByJSE` reads "thisID is the this value of the js function, when thisID is "", the
this context will be the window". -/
inductive Scope
  | window
  | receiver (objectID : String)
  deriving DecidableEq, Repr

/-- Modelled from the spec: the scope that `EvalE` gives to a script for a receiver id. -/
def scriptScope (thisID : String) : Scope :=
  if thisID = "" then .window else .receiver thisID

/-- The scopes of the evaluations of a log, in order. -/
def evalScopes : Log → List Scope
  | [] => []
  | .eval _ thisID _ _ _ :: rest => scriptScope thisID :: evalScopes rest
  | _ :: rest => evalScopes rest

/-- A `DOM.performSearch` that was answered with `resultCount` 0. -/
def Event.isZeroPoll : Event → Bool
  | .call method _ (.ok h) => method == "DOM.performSearch" && h.resultCount == 0
  | _ => false

/-- A `DOM.discardSearchResults` request. -/
def Event.isDiscard : Event → Bool
  | .call method _ _ => method == "DOM.discardSearchResults"
  | _ => false

def zeroPolls (log : Log) : Nat := log.countP Event.isZeroPoll
def discards (log : Log) : Nat := log.countP Event.isDiscard

/-- The number of release requests for the object `a`. -/
def releasesOf (a : String) (log : Log) : Nat :=
  log.countP fun e => match e with
    | .release objectID _ => objectID == a
    | _ => false

/-- The properties that the loop of `ElementsByJSE` does not skip. -/
def Property.isMember (obj : Property) : Bool :=
  !(obj.name == "__proto__" || obj.name == "length")

/-- One step of the check that sessions are released in order.  The state is `none` once the
order is broken, `some none` when no session awaits release, and `some (some id)` after a
zero-count poll with `searchId = id`: then the next search request must be the discard of
`id`; a discard at any other moment, or a poll while `id` is open, breaks the order. -/
def searchStep (st : Option (Option String)) (e : Event) : Option (Option String) :=
  match st, e with
  | none, _ => none
  | some none, .call method _ res =>
    if method = "DOM.performSearch" then
      match res with
      | .ok h => if h.resultCount = 0 then some (some h.searchId) else some none
      | .error _ => some none
    else if method = "DOM.discardSearchResults" then none
    else some none
  | some (some id), .call method params _ =>
    if method = "DOM.performSearch" then none
    else if method = "DOM.discardSearchResults" then
      if params = [("searchId", Arg.str id)] then some none else none
    else some (some id)
  | some pending, _ => some pending

/-- The release order holds along the whole log and no session is left open at its end. -/
def releasedInOrder (log : Log) : Prop :=
  log.foldl searchStep (some none) = some none

/-- What C10 says of one `Has*` call that resolves through `ElementByJSE` with a nil sleeper
and the given receiver, script and parameters, started on `log` and ending in `r`. -/
def HasContract (env : Remote) (p : Page) (fuel : Nat) (thisID js : String)
    (params : List Arg) (log : Log) (r : Outcome (Bool × Option GoError) × Log) : Prop :=
  r.2 = (p.ElementByJSE env (fuel + 1) none thisID js params log).2
  ∧ evalCount r.2 = evalCount log + 1
  ∧ ∃ el err, (p.ElementByJSE env (fuel + 1) none thisID js params log).1 = .ret (el, err)
    ∧ (r.1 = .ret (true, none) ↔
        ∃ v, env.evalE (evalCount log) false thisID js params = .ok v ∧ v.subtype = "node")
    ∧ (r.1 = .ret (false, none) ↔ IsError err .ErrElementNotFound = true)
    ∧ ((∃ v, env.evalE (evalCount log) false thisID js params = .ok v
          ∧ v.type = "object" ∧ v.subtype = "null") → r.1 = .ret (false, none))
    ∧ (err ≠ none → IsError err .ErrElementNotFound = false → r.1 = .ret (false, err))

/-- What the amended C8 says of one single-result derived query of `el` with script `js` and
parameters `params`, started on `log` and ending in `r`: one evaluation, made with
`el.ObjectID` as receiver, and an outcome fixed by the answer of that evaluation alone,
whether the identifier is empty or not. -/
def DerivedOneContract (env : Remote) (el : Element) (js : String) (params : List Arg)
    (log : Log) (r : Outcome (Option Element × Option GoError) × Log) : Prop :=
  evalScopes r.2
    = evalScopes log ++ [if el.ObjectID = "" then Scope.window else Scope.receiver el.ObjectID]
  ∧ (∀ e, env.evalE (evalCount log) false el.ObjectID js params = .error e →
      r.1 = .ret (none, some e))
  ∧ (∀ v, env.evalE (evalCount log) false el.ObjectID js params = .ok v →
      r.1 = if v.type = "object" ∧ v.subtype = "null" then
              .ret (none, some (.rod .ErrElementNotFound (.js js)))
            else if v.subtype = "node" then
              .ret (some { page := el.page, ctx := el.page.ctx, ObjectID := v.objectId },
                none)
            else .ret (none, some (.rod .ErrExpectElement (.raw v.raw))))

/-- What the amended C8 says of one bulk derived query of `el` with script `js` and
parameters `params`, started on `log` and ending in `r`: one evaluation, made with
`el.ObjectID` as receiver, and an outcome fixed by the answers of that evaluation and of the
property enumeration alone, whether the identifier is empty or not. -/
def DerivedManyContract (env : Remote) (el : Element) (js : String) (params : List Arg)
    (log : Log) (r : Outcome (Option (List Element) × Option GoError) × Log) : Prop :=
  evalScopes r.2
    = evalScopes log ++ [if el.ObjectID = "" then Scope.window else Scope.receiver el.ObjectID]
  ∧ (∀ e, env.evalE (evalCount log) false el.ObjectID js params = .error e →
      r.1 = .ret (none, some e))
  ∧ (∀ v, env.evalE (evalCount log) false el.ObjectID js params = .ok v →
      v.subtype ≠ "array" → r.1 = .ret (none, some (.rod .ErrExpectElements (.value v))))
  ∧ (∀ v e, env.evalE (evalCount log) false el.ObjectID js params = .ok v →
      v.subtype = "array" →
      env.callE (callCount log) "Runtime.getProperties"
        [("objectId", .str v.objectId), ("ownProperties", .bool true)] = .error e →
      r.1 = .panic "kit.E: Runtime.getProperties failed")
  ∧ (∀ v list, env.evalE (evalCount log) false el.ObjectID js params = .ok v →
      v.subtype = "array" →
      env.callE (callCount log) "Runtime.getProperties"
        [("objectId", .str v.objectId), ("ownProperties", .bool true)] = .ok list →
      ((∀ obj ∈ list.result, obj.name ≠ "__proto__" → obj.name ≠ "length" →
          obj.value.subtype = "node") →
        r.1 = .ret (some ((list.result.filter
              fun obj => !(obj.name == "__proto__" || obj.name == "length")).map
            fun obj => { page := el.page, ctx := el.page.ctx,
                         ObjectID := obj.value.objectId }), none))
      ∧ ((∃ obj ∈ list.result, obj.name ≠ "__proto__" ∧ obj.name ≠ "length"
            ∧ obj.value.subtype ≠ "node") →
        ∃ bad, bad.subtype ≠ "node"
          ∧ r.1 = .ret (none, some (.rod .ErrExpectElements (.value bad)))))

/-! ## Concrete pages and remotes -/

def nullObject : RemoteObject :=
  { type := "object", subtype := "null", objectId := "", raw := "null" }

def nodeObject (i : String) : RemoteObject :=
  { type := "object", subtype := "node", objectId := i, raw := "node" }

def numberObject : RemoteObject :=
  { type := "number", subtype := "", objectId := "", raw := "1" }

def arrayObject (a : String) : RemoteObject :=
  { type := "object", subtype := "array", objectId := a, raw := "array" }

def plainPage : Page := { ctx := 0, trace := false, jsFn := fun name => "rod." ++ name }

def tracedPage : Page := { ctx := 0, trace := true, jsFn := fun name => "rod." ++ name }

/-- A remote whose evaluations answer null `n` times and answer `v` from then on; a search
reports no result for the first `n` calls (the document request and `n - 1` search requests
when every poll is released) and one result afterwards. -/
def remoteAfter (n : Nat) (v : Except GoError RemoteObject) : Remote :=
  { evalE := fun k _ _ _ _ => if k < n then .ok nullObject else v
    callE := fun k _ _ =>
      .ok { searchId := "s", resultCount := if k < n then 0 else 1, result := [] }
    releaseE := fun _ _ => none }

/-- A remote whose evaluations answer the array `a` and whose property enumeration answers
`props`; releases fail when `releaseFails` is set. -/
def arrayRemote (a : String) (props : List Property) (releaseFails : Bool) : Remote :=
  { evalE := fun _ _ _ _ _ => .ok (arrayObject a)
    callE := fun _ _ _ => .ok { searchId := "", resultCount := 0, result := props }
    releaseE := fun _ _ => if releaseFails then some (.foreign "gone") else none }

def alwaysSleeper : Sleeper := fun _ => none

/-- A sleeper that succeeds `n` times and then fails with `e`. -/
def countSleeper (n : Nat) (e : GoError) : Sleeper :=
  fun k => if k < n then none else some e

def emptyElement : Element := { page := plainPage, ctx := 0, ObjectID := "" }

end Rod

/-! ## lib/defaults -/

namespace defaults

/-- The package variables `Show`, `Trace`, `Slow`, `Port`, `CDP`, `Monitor`; `Slow` is a
`time.Duration`, a count of nanoseconds. -/
structure Options where
  Show : Bool
  Trace : Bool
  Slow : Int
  Port : String
  CDP : Bool
  Monitor : String
  deriving DecidableEq, Repr

/-- The values of the package variables before `init` runs: `Port = "0"`, the rest zero. -/
def initial : Options :=
  { Show := false, Trace := false, Slow := 0, Port := "0", CDP := false, Monitor := "" }

/-- How `parse` ends: it returns, leaving the variables as given, or it panics. -/
inductive Run
  | done (o : Options)
  | panic (msg : String)
  deriving DecidableEq, Repr

/-- The loop of `strings.Split` for a separator of one character: `cur` holds the current
piece in reverse. -/
def splitAux (sep : Char) : List Char → List Char → List (List Char)
  | [], cur => [cur.reverse]
  | c :: cs, cur =>
    if c = sep then cur.reverse :: splitAux sep cs [] else splitAux sep cs (c :: cur)

/-- The call `strings.Split(s, sep)` for a separator of one character. -/
def Split (s : String) (sep : Char) : List String :=
  (splitAux sep s.data []).map String.mk

/-- The body of the `for` loop of `parse` for one piece `f`.  `ParseDuration` stands for
`time.ParseDuration`; `kv[1]` on a one-element slice is a run-time panic. -/
def parseOption (ParseDuration : String → Except String Int) (o : Options) (f : String) :
    Run :=
  let kv := Split f '='
  match kv with
  | [] => .panic "index out of range [0] with length 0"
  | k :: kvTail =>
    if k = "show" then .done { o with Show := true }
    else if k = "trace" then .done { o with Trace := true }
    else if k = "slow" then
      match kvTail with
      | [] => .panic "index out of range [1] with length 1"
      | v :: _ =>
        match ParseDuration v with
        | .ok d => .done { o with Slow := d }
        | .error err => .panic err
    else if k = "port" then
      match kvTail with
      | [] => .panic "index out of range [1] with length 1"
      | v :: _ => .done { o with Port := v }
    else if k = "cdp" then .done { o with CDP := true }
    else if k = "monitor" then
      match kvTail with
      | [v] => .done { o with Monitor := v }
      | _ => .done { o with Monitor := ":9273" }
    else .panic ("no such rod option: " ++ k)

/-- The `for` loop of `parse` over the pieces. -/
def parseLoop (ParseDuration : String → Except String Int) : Options → List String → Run
  | o, [] => .done o
  | o, f :: rest =>
    match parseOption ParseDuration o f with
    | .done o1 => parseLoop ParseDuration o1 rest
    | .panic msg => .panic msg

def parse (ParseDuration : String → Except String Int) (o : Options) (options : String) :
    Run :=
  if options = "" then .done o
  else parseLoop ParseDuration o (Split options ',')

/-- A stand-in for `time.ParseDuration` that knows the one duration of the documented
example, "1s", as 1000000000 nanoseconds.  It is not a model of `time.ParseDuration` on any
other string: there it answers an error, which the real function need not do. -/
def parseDurationExample (s : String) : Except String Int :=
  if s = "1s" then .ok 1000000000 else .error ("time: invalid duration " ++ s)

end defaults

/-! # Theorems -/

namespace Rod

/-! ## Counting lemmas -/

theorem evalCount_append (a b : Log) : evalCount (a ++ b) = evalCount a + evalCount b := by
  simp [evalCount, List.countP_append]

theorem sleepCount_append (a b : Log) : sleepCount (a ++ b) = sleepCount a + sleepCount b := by
  simp [sleepCount, List.countP_append]

theorem evalCount_traceBegin (p : Page) (js : String) (params : List Arg) (log : Log) :
    evalCount (traceBegin p js params log) = evalCount log := by
  unfold traceBegin
  split <;> simp [evalCount, List.countP_append, Event.isEval]

theorem sleepCount_traceBegin (p : Page) (js : String) (params : List Arg) (log : Log) :
    sleepCount (traceBegin p js params log) = sleepCount log := by
  unfold traceBegin
  split <;> simp [sleepCount, List.countP_append, Event.isSleep]

theorem evalCount_traceEnd (p : Page) (log : Log) :
    evalCount (traceEnd p log) = evalCount log := by
  unfold traceEnd
  split <;> simp [evalCount, List.countP_append, Event.isEval]

theorem sleepCount_traceEnd (p : Page) (log : Log) :
    sleepCount (traceEnd p log) = sleepCount log := by
  unfold traceEnd
  split <;> simp [sleepCount, List.countP_append, Event.isSleep]

theorem isNull_iff (v : RemoteObject) :
    v.isNull = true ↔ (v.type = "object" ∧ v.subtype = "null") := by
  simp [RemoteObject.isNull]

/-! ## One round of the closure of `ElementByJSE` -/

theorem elementByJSFn_null (env : Remote) (p : Page) (thisID js : String)
    (params : List Arg) (val : Option RemoteObject) (log : Log) (v : RemoteObject)
    (h : env.evalE (evalCount log) false thisID js params = .ok v)
    (hn : v.isNull = true) :
    elementByJSFn env p thisID js params val log
      = ((false, none), some v, log ++ [Event.eval false thisID js params (.ok v)]) := by
  simp [elementByJSFn, Page.EvalE, h, hn]

theorem elementByJSFn_value (env : Remote) (p : Page) (thisID js : String)
    (params : List Arg) (val : Option RemoteObject) (log : Log) (v : RemoteObject)
    (h : env.evalE (evalCount log) false thisID js params = .ok v)
    (hn : v.isNull = false) :
    elementByJSFn env p thisID js params val log
      = ((true, none), some v, log ++ [Event.eval false thisID js params (.ok v)]) := by
  simp [elementByJSFn, Page.EvalE, h, hn]

theorem elementByJSFn_error (env : Remote) (p : Page) (thisID js : String)
    (params : List Arg) (val : Option RemoteObject) (log : Log) (e : GoError)
    (h : env.evalE (evalCount log) false thisID js params = .error e) :
    elementByJSFn env p thisID js params val log
      = ((true, some e), val, log ++ [Event.eval false thisID js params (.error e)]) := by
  simp [elementByJSFn, Page.EvalE, h]

/-- While the evaluations answer null and the sleeper succeeds, `N` rounds of the loop use up
`N` units of fuel, `N` evaluations and `N` sleeper calls. -/
theorem retryLoop_skip_nulls (env : Remote) (p : Page) (thisID js : String)
    (params : List Arg) (s : Sleeper) (N : Nat) :
    ∀ (m k : Nat) (st : Option RemoteObject) (log : Log),
      (∀ j, j < N → ∃ w, env.evalE (evalCount log + j) false thisID js params = .ok w
        ∧ w.isNull = true) →
      (∀ j, j < N → s (k + j) = none) →
      ∃ st1 mid, RetryLoop (some s) (elementByJSFn env p thisID js params) (N + m) k st log
          = RetryLoop (some s) (elementByJSFn env p thisID js params) m (k + N) st1
              (log ++ mid)
        ∧ evalCount mid = N ∧ sleepCount mid = N := by
  induction N with
  | zero =>
    intro m k st log _ _
    exact ⟨st, [], by simp, by simp [evalCount], by simp [sleepCount]⟩
  | succ N ih =>
    intro m k st log hnull hsleep
    obtain ⟨w, hw, hwn⟩ := hnull 0 (Nat.succ_pos N)
    have hs0 : s k = none := by simpa using hsleep 0 (Nat.succ_pos N)
    have hrounds : ∀ j, j < N → ∃ w1,
        env.evalE (evalCount (log ++ [Event.eval false thisID js params (.ok w),
          Event.sleep k none]) + j) false thisID js params = .ok w1 ∧ w1.isNull = true := by
      intro j hj
      have := hnull (j + 1) (Nat.succ_lt_succ hj)
      have hc : evalCount (log ++ [Event.eval false thisID js params (.ok w),
          Event.sleep k none]) + j = evalCount log + (j + 1) := by
        simp [evalCount, List.countP_append, List.countP_cons, Event.isEval]
        omega
      rw [hc]
      exact this
    have hsl : ∀ j, j < N → s (k + 1 + j) = none := by
      intro j hj
      have := hsleep (j + 1) (Nat.succ_lt_succ hj)
      rw [show k + 1 + j = k + (j + 1) by omega]
      exact this
    obtain ⟨st1, mid, hrun, he, hsc⟩ := ih m (k + 1) (some w) _ hrounds hsl
    refine ⟨st1, [Event.eval false thisID js params (.ok w), Event.sleep k none] ++ mid,
      ?_, ?_, ?_⟩
    · rw [show N + 1 + m = (N + m) + 1 by omega]
      simp only [Nat.add_zero] at hw
      rw [RetryLoop, elementByJSFn_null env p thisID js params st log w hw hwn]
      simp only [hs0, List.append_assoc, List.singleton_append]
      rw [show k + (N + 1) = k + 1 + N by omega, hrun]
      simp
    · rw [evalCount_append, he]
      simp [evalCount, Event.isEval]
      omega
    · rw [sleepCount_append, hsc]
      simp [sleepCount, Event.isSleep]
      omega

/-- After `N` null rounds, a non-null value ends the loop without asking the sleeper. -/
theorem retryLoop_value_after_nulls (env : Remote) (p : Page) (thisID js : String)
    (params : List Arg) (s : Sleeper) (N m k : Nat) (st : Option RemoteObject) (log : Log)
    (v : RemoteObject)
    (hnull : ∀ j, j < N → ∃ w, env.evalE (evalCount log + j) false thisID js params = .ok w
      ∧ w.isNull = true)
    (hsleep : ∀ j, j < N → s (k + j) = none)
    (hv : env.evalE (evalCount log + N) false thisID js params = .ok v)
    (hn : v.isNull = false) :
    ∃ mid, evalCount mid = N ∧ sleepCount mid = N ∧
      RetryLoop (some s) (elementByJSFn env p thisID js params) (N + (m + 1)) k st log
        = (.ret none, some v, log ++ mid ++ [Event.eval false thisID js params (.ok v)]) := by
  obtain ⟨st1, mid, hrun, he, hsc⟩ :=
    retryLoop_skip_nulls env p thisID js params s N (m + 1) k st log hnull hsleep
  refine ⟨mid, he, hsc, ?_⟩
  have hv1 : env.evalE (evalCount (log ++ mid)) false thisID js params = .ok v := by
    rw [evalCount_append, he]; exact hv
  rw [hrun, RetryLoop, elementByJSFn_value env p thisID js params st1 _ v hv1 hn]

/-- After `N` null rounds, a failing evaluation ends the loop with its error. -/
theorem retryLoop_error_after_nulls (env : Remote) (p : Page) (thisID js : String)
    (params : List Arg) (s : Sleeper) (N m k : Nat) (st : Option RemoteObject) (log : Log)
    (e : GoError)
    (hnull : ∀ j, j < N → ∃ w, env.evalE (evalCount log + j) false thisID js params = .ok w
      ∧ w.isNull = true)
    (hsleep : ∀ j, j < N → s (k + j) = none)
    (hv : env.evalE (evalCount log + N) false thisID js params = .error e) :
    ∃ st1 mid, evalCount mid = N ∧ sleepCount mid = N ∧
      RetryLoop (some s) (elementByJSFn env p thisID js params) (N + (m + 1)) k st log
        = (.ret (some e), st1,
            log ++ mid ++ [Event.eval false thisID js params (.error e)]) := by
  obtain ⟨st1, mid, hrun, he, hsc⟩ :=
    retryLoop_skip_nulls env p thisID js params s N (m + 1) k st log hnull hsleep
  refine ⟨st1, mid, he, hsc, ?_⟩
  have hv1 : env.evalE (evalCount (log ++ mid)) false thisID js params = .error e := by
    rw [evalCount_append, he]; exact hv
  rw [hrun, RetryLoop, elementByJSFn_error env p thisID js params st1 _ e hv1]

/-- After `N` null rounds, a further null followed by a failing sleeper ends the loop with
the sleeper's error. -/
theorem retryLoop_sleeper_error_after_nulls (env : Remote) (p : Page) (thisID js : String)
    (params : List Arg) (s : Sleeper) (N m k : Nat) (st : Option RemoteObject) (log : Log)
    (w : RemoteObject) (e : GoError)
    (hnull : ∀ j, j < N → ∃ w, env.evalE (evalCount log + j) false thisID js params = .ok w
      ∧ w.isNull = true)
    (hsleep : ∀ j, j < N → s (k + j) = none)
    (hv : env.evalE (evalCount log + N) false thisID js params = .ok w)
    (hn : w.isNull = true) (hs : s (k + N) = some e) :
    ∃ mid, evalCount mid = N ∧ sleepCount mid = N ∧
      RetryLoop (some s) (elementByJSFn env p thisID js params) (N + (m + 1)) k st log
        = (.ret (some e), some w,
            log ++ mid ++ [Event.eval false thisID js params (.ok w)]
              ++ [Event.sleep (k + N) (some e)]) := by
  obtain ⟨st1, mid, hrun, he, hsc⟩ :=
    retryLoop_skip_nulls env p thisID js params s N (m + 1) k st log hnull hsleep
  refine ⟨mid, he, hsc, ?_⟩
  have hv1 : env.evalE (evalCount (log ++ mid)) false thisID js params = .ok w := by
    rw [evalCount_append, he]; exact hv
  rw [hrun, RetryLoop, elementByJSFn_null env p thisID js params st1 _ w hv1 hn]
  simp only [hs]

/-- While the evaluations answer null and the sleeper succeeds, `N` units of fuel are not
enough for the loop to finish. -/
theorem retryLoop_fuelOut_of_nulls (env : Remote) (p : Page) (thisID js : String)
    (params : List Arg) (s : Sleeper) (N k : Nat) (st : Option RemoteObject) (log : Log)
    (hnull : ∀ j, j < N → ∃ w, env.evalE (evalCount log + j) false thisID js params = .ok w
      ∧ w.isNull = true)
    (hsleep : ∀ j, j < N → s (k + j) = none) :
    ∃ st1 mid,
      RetryLoop (some s) (elementByJSFn env p thisID js params) N k st log
        = (.fuelOut, st1, log ++ mid) := by
  obtain ⟨st1, mid, hrun, _, _⟩ :=
    retryLoop_skip_nulls env p thisID js params s N 0 k st log hnull hsleep
  exact ⟨st1, mid, by simpa [RetryLoop] using hrun⟩

/-! ## Single-result resolution -/

/-- C1: with a nil sleeper, when the first evaluation answers a value of type "object" and
subtype "null", `Page.ElementByJSE` returns no element and the `ErrElementNotFound` error;
the log gains exactly one evaluation, followed by the one call of the substituted sleeper. -/
theorem elementByJSE_nil_sleeper_null (env : Remote) (p : Page) (thisID js : String)
    (params : List Arg) (log : Log) (v : RemoteObject) (fuel : Nat)
    (hv : env.evalE (evalCount log) false thisID js params = .ok v)
    (ht : v.type = "object") (hs : v.subtype = "null") :
    p.ElementByJSE env (fuel + 1) none thisID js params log
      = (.ret (none, some (.rod .ErrElementNotFound (.js js))),
          traceEnd p (traceBegin p js params log
            ++ [Event.eval false thisID js params (.ok v),
                Event.sleep 0 (some (.rod .ErrElementNotFound (.js js)))]))
    ∧ evalCount (p.ElementByJSE env (fuel + 1) none thisID js params log).2
        = evalCount log + 1 := by
  have hn : v.isNull = true := (isNull_iff v).2 ⟨ht, hs⟩
  have hv1 : env.evalE (evalCount (traceBegin p js params log)) false thisID js params
      = .ok v := by
    rw [evalCount_traceBegin]; exact hv
  have hrun : p.ElementByJSE env (fuel + 1) none thisID js params log
      = (.ret (none, some (.rod .ErrElementNotFound (.js js))),
          traceEnd p (traceBegin p js params log
            ++ [Event.eval false thisID js params (.ok v),
                Event.sleep 0 (some (.rod .ErrElementNotFound (.js js)))])) := by
    simp [Page.ElementByJSE, Retry, RetryLoop,
      elementByJSFn_null env p thisID js params none _ v hv1 hn, sleeperOrNotFound,
      notFoundSleeper]
  refine ⟨hrun, ?_⟩
  rw [hrun]
  simp only [evalCount_traceEnd, evalCount_append, evalCount_traceBegin]
  simp [evalCount, Event.isEval]

/-- C2: if the first `N` evaluations answer null, the sleeper succeeds on each of its first
`N` calls and evaluation `N + 1` answers a value of subtype "node" with object id `i`, then
`Page.ElementByJSE` does not finish within `N` rounds, and with more fuel it returns the
element with `ObjectID = i` and a nil error after exactly `N + 1` evaluations and `N` sleeper
calls, the node-valued evaluation being the last request. -/
theorem elementByJSE_node_after_nulls (env : Remote) (p : Page) (sleeper : Option Sleeper)
    (thisID js : String) (params : List Arg) (log : Log) (N : Nat) (v : RemoteObject)
    (i : String)
    (hnull : ∀ j, j < N → ∃ w, env.evalE (evalCount log + j) false thisID js params = .ok w
      ∧ w.type = "object" ∧ w.subtype = "null")
    (hsleep : ∀ j, j < N → sleeperOrNotFound sleeper js j = none)
    (hv : env.evalE (evalCount log + N) false thisID js params = .ok v)
    (hsub : v.subtype = "node") (hid : v.objectId = i) :
    (∀ fuel, fuel ≤ N →
      (p.ElementByJSE env fuel sleeper thisID js params log).1 = .fuelOut)
    ∧ (∀ fuel, N < fuel → ∃ mid, evalCount mid = N ∧ sleepCount mid = N ∧
        p.ElementByJSE env fuel sleeper thisID js params log
          = (.ret (some { page := p, ctx := p.ctx, ObjectID := i }, none),
              traceEnd p (traceBegin p js params log ++ mid
                ++ [Event.eval false thisID js params (.ok v)]))
        ∧ evalCount (p.ElementByJSE env fuel sleeper thisID js params log).2
            = evalCount log + (N + 1)
        ∧ sleepCount (p.ElementByJSE env fuel sleeper thisID js params log).2
            = sleepCount log + N) := by
  have hnull1 : ∀ M, M ≤ N → ∀ j, j < M →
      ∃ w, env.evalE (evalCount (traceBegin p js params log) + j) false thisID js params
        = .ok w ∧ w.isNull = true := by
    intro M hM j hj
    obtain ⟨w, hw, h1, h2⟩ := hnull j (by omega)
    exact ⟨w, by rw [evalCount_traceBegin]; exact hw, (isNull_iff w).2 ⟨h1, h2⟩⟩
  have hsleep1 : ∀ M, M ≤ N → ∀ j, j < M → sleeperOrNotFound sleeper js (0 + j) = none := by
    intro M hM j hj
    rw [Nat.zero_add]; exact hsleep j (by omega)
  constructor
  · intro fuel hf
    obtain ⟨st1, mid, hrun⟩ := retryLoop_fuelOut_of_nulls env p thisID js params
      (sleeperOrNotFound sleeper js) fuel 0 none _ (hnull1 fuel hf) (hsleep1 fuel hf)
    simp [Page.ElementByJSE, Retry, hrun]
  · intro fuel hf
    obtain ⟨m, rfl⟩ : ∃ m, fuel = N + (m + 1) := ⟨fuel - N - 1, by omega⟩
    have hn : v.isNull = false := by
      simp [RemoteObject.isNull, hsub]
    obtain ⟨mid, he, hsc, hrun⟩ := retryLoop_value_after_nulls env p thisID js params
      (sleeperOrNotFound sleeper js) N m 0 none _ v (hnull1 N (Nat.le_refl N))
      (hsleep1 N (Nat.le_refl N)) (by rw [evalCount_traceBegin]; exact hv) hn
    have hres : p.ElementByJSE env (N + (m + 1)) sleeper thisID js params log
        = (.ret (some { page := p, ctx := p.ctx, ObjectID := i }, none),
            traceEnd p (traceBegin p js params log ++ mid
              ++ [Event.eval false thisID js params (.ok v)])) := by
      simp [Page.ElementByJSE, Retry, hrun, hsub, hid]
    refine ⟨mid, he, hsc, hres, ?_, ?_⟩
    · rw [hres]
      simp only [evalCount_traceEnd, evalCount_append, evalCount_traceBegin, he]
      simp [evalCount, Event.isEval]
      omega
    · rw [hres]
      simp only [sleepCount_traceEnd, sleepCount_append, sleepCount_traceBegin, hsc]
      simp [sleepCount, Event.isSleep]

/-- C3: whatever the sleeper, once an evaluation of `Page.ElementByJSE` (the one after `N`
null rounds) answers a value that is not null and whose subtype is not "node", the call
returns no element and the `ErrExpectElement` error; that evaluation is the last request, so
the sleeper is not asked again and nothing further is evaluated. -/
theorem elementByJSE_expect_element (env : Remote) (p : Page) (sleeper : Option Sleeper)
    (thisID js : String) (params : List Arg) (log : Log) (N : Nat) (v : RemoteObject)
    (hnull : ∀ j, j < N → ∃ w, env.evalE (evalCount log + j) false thisID js params = .ok w
      ∧ w.type = "object" ∧ w.subtype = "null")
    (hsleep : ∀ j, j < N → sleeperOrNotFound sleeper js j = none)
    (hv : env.evalE (evalCount log + N) false thisID js params = .ok v)
    (hnn : ¬ (v.type = "object" ∧ v.subtype = "null")) (hsub : v.subtype ≠ "node") :
    ∀ fuel, N < fuel → ∃ mid, evalCount mid = N ∧ sleepCount mid = N ∧
      p.ElementByJSE env fuel sleeper thisID js params log
        = (.ret (none, some (.rod .ErrExpectElement (.raw v.raw))),
            traceEnd p (traceBegin p js params log ++ mid
              ++ [Event.eval false thisID js params (.ok v)]))
      ∧ evalCount (p.ElementByJSE env fuel sleeper thisID js params log).2
          = evalCount log + (N + 1)
      ∧ sleepCount (p.ElementByJSE env fuel sleeper thisID js params log).2
          = sleepCount log + N := by
  intro fuel hf
  obtain ⟨m, rfl⟩ : ∃ m, fuel = N + (m + 1) := ⟨fuel - N - 1, by omega⟩
  have hn : v.isNull = false := by
    rw [Bool.eq_false_iff]
    exact fun h => hnn ((isNull_iff v).1 h)
  have hnull1 : ∀ j, j < N →
      ∃ w, env.evalE (evalCount (traceBegin p js params log) + j) false thisID js params
        = .ok w ∧ w.isNull = true := by
    intro j hj
    obtain ⟨w, hw, h1, h2⟩ := hnull j hj
    exact ⟨w, by rw [evalCount_traceBegin]; exact hw, (isNull_iff w).2 ⟨h1, h2⟩⟩
  have hsleep1 : ∀ j, j < N → sleeperOrNotFound sleeper js (0 + j) = none := by
    intro j hj
    rw [Nat.zero_add]; exact hsleep j hj
  obtain ⟨mid, he, hsc, hrun⟩ := retryLoop_value_after_nulls env p thisID js params
    (sleeperOrNotFound sleeper js) N m 0 none _ v hnull1 hsleep1
    (by rw [evalCount_traceBegin]; exact hv) hn
  have hres : p.ElementByJSE env (N + (m + 1)) sleeper thisID js params log
      = (.ret (none, some (.rod .ErrExpectElement (.raw v.raw))),
          traceEnd p (traceBegin p js params log ++ mid
            ++ [Event.eval false thisID js params (.ok v)])) := by
    simp [Page.ElementByJSE, Retry, hrun, hsub]
  refine ⟨mid, he, hsc, hres, ?_, ?_⟩
  · rw [hres]
    simp only [evalCount_traceEnd, evalCount_append, evalCount_traceBegin, he]
    simp [evalCount, Event.isEval]
    omega
  · rw [hres]
    simp only [sleepCount_traceEnd, sleepCount_append, sleepCount_traceBegin, hsc]
    simp [sleepCount, Event.isSleep]

/-- C4: for a non-nil sleeper `s`, after `N` null rounds in which `s` succeeded, the first
error, whether evaluation `N + 1` fails with `e` or it answers null and `s` then fails with
`e`, is returned unchanged by `Page.ElementByJSE`, with no element, after exactly `N + 1`
evaluations; the failing request is the last one. -/
theorem elementByJSE_first_error (env : Remote) (p : Page) (s : Sleeper)
    (thisID js : String) (params : List Arg) (log : Log) (N : Nat) (e : GoError)
    (hnull : ∀ j, j < N → ∃ w, env.evalE (evalCount log + j) false thisID js params = .ok w
      ∧ w.type = "object" ∧ w.subtype = "null")
    (hsleep : ∀ j, j < N → s j = none)
    (herr : env.evalE (evalCount log + N) false thisID js params = .error e
      ∨ ((∃ w, env.evalE (evalCount log + N) false thisID js params = .ok w
          ∧ w.type = "object" ∧ w.subtype = "null") ∧ s N = some e)) :
    ∀ fuel, N < fuel → ∃ mid last, evalCount mid = N ∧ sleepCount mid = N ∧
      (last = [Event.eval false thisID js params (.error e)]
        ∨ ∃ w, last = [Event.eval false thisID js params (.ok w), Event.sleep N (some e)]) ∧
      p.ElementByJSE env fuel (some s) thisID js params log
        = (.ret (none, some e), traceEnd p (traceBegin p js params log ++ mid ++ last))
      ∧ evalCount (p.ElementByJSE env fuel (some s) thisID js params log).2
          = evalCount log + (N + 1) := by
  intro fuel hf
  obtain ⟨m, rfl⟩ : ∃ m, fuel = N + (m + 1) := ⟨fuel - N - 1, by omega⟩
  have hnull1 : ∀ j, j < N →
      ∃ w, env.evalE (evalCount (traceBegin p js params log) + j) false thisID js params
        = .ok w ∧ w.isNull = true := by
    intro j hj
    obtain ⟨w, hw, h1, h2⟩ := hnull j hj
    exact ⟨w, by rw [evalCount_traceBegin]; exact hw, (isNull_iff w).2 ⟨h1, h2⟩⟩
  have hsleep1 : ∀ j, j < N → s (0 + j) = none := by
    intro j hj
    rw [Nat.zero_add]; exact hsleep j hj
  rcases herr with herr | ⟨⟨w, hw, h1, h2⟩, hs⟩
  · obtain ⟨st1, mid, he, hsc, hrun⟩ := retryLoop_error_after_nulls env p thisID js params
      s N m 0 none _ e hnull1 hsleep1 (by rw [evalCount_traceBegin]; exact herr)
    have hres : p.ElementByJSE env (N + (m + 1)) (some s) thisID js params log
        = (.ret (none, some e), traceEnd p (traceBegin p js params log ++ mid
            ++ [Event.eval false thisID js params (.error e)])) := by
      simp [Page.ElementByJSE, Retry, hrun, sleeperOrNotFound]
    refine ⟨mid, _, he, hsc, Or.inl rfl, hres, ?_⟩
    rw [hres]
    simp only [evalCount_traceEnd, evalCount_append, evalCount_traceBegin, he]
    simp [evalCount, Event.isEval]
    omega
  · obtain ⟨mid, he, hsc, hrun⟩ := retryLoop_sleeper_error_after_nulls env p thisID js
      params s N m 0 none _ w e hnull1 hsleep1 (by rw [evalCount_traceBegin]; exact hw)
      ((isNull_iff w).2 ⟨h1, h2⟩) (by rw [Nat.zero_add]; exact hs)
    have hres : p.ElementByJSE env (N + (m + 1)) (some s) thisID js params log
        = (.ret (none, some e), traceEnd p (traceBegin p js params log ++ mid
            ++ [Event.eval false thisID js params (.ok w), Event.sleep N (some e)])) := by
      simp [Page.ElementByJSE, Retry, hrun, sleeperOrNotFound]
    refine ⟨mid, _, he, hsc, Or.inr ⟨w, rfl⟩, hres, ?_⟩
    rw [hres]
    simp only [evalCount_traceEnd, evalCount_append, evalCount_traceBegin, he]
    simp [evalCount, Event.isEval]
    omega

/-! ## A single attempt: the nil sleeper -/

/-- With a nil sleeper `ElementByJSE` is decided by its first evaluation. -/
theorem elementByJSE_single_attempt (env : Remote) (p : Page) (fuel : Nat)
    (thisID js : String) (params : List Arg) (log : Log) :
    p.ElementByJSE env (fuel + 1) none thisID js params log
      = match env.evalE (evalCount log) false thisID js params with
        | .error e =>
          (.ret (none, some e), traceEnd p (traceBegin p js params log
            ++ [Event.eval false thisID js params (.error e)]))
        | .ok v =>
          if v.isNull then
            (.ret (none, some (.rod .ErrElementNotFound (.js js))),
              traceEnd p (traceBegin p js params log
                ++ [Event.eval false thisID js params (.ok v),
                    Event.sleep 0 (some (.rod .ErrElementNotFound (.js js)))]))
          else if v.subtype != "node" then
            (.ret (none, some (.rod .ErrExpectElement (.raw v.raw))),
              traceEnd p (traceBegin p js params log
                ++ [Event.eval false thisID js params (.ok v)]))
          else
            (.ret (some { page := p, ctx := p.ctx, ObjectID := v.objectId }, none),
              traceEnd p (traceBegin p js params log
                ++ [Event.eval false thisID js params (.ok v)])) := by
  cases hev : env.evalE (evalCount log) false thisID js params with
  | error e =>
    have h1 : env.evalE (evalCount (traceBegin p js params log)) false thisID js params
        = .error e := by rw [evalCount_traceBegin]; exact hev
    simp [Page.ElementByJSE, Retry, RetryLoop,
      elementByJSFn_error env p thisID js params none _ e h1]
  | ok v =>
    have h1 : env.evalE (evalCount (traceBegin p js params log)) false thisID js params
        = .ok v := by rw [evalCount_traceBegin]; exact hev
    cases hn : v.isNull with
    | true =>
      simp [Page.ElementByJSE, Retry, RetryLoop,
        elementByJSFn_null env p thisID js params none _ v h1 hn, sleeperOrNotFound,
        notFoundSleeper, hn]
    | false =>
      simp only [Page.ElementByJSE, Retry, RetryLoop,
        elementByJSFn_value env p thisID js params none _ v h1 hn]
      simp [hn]

/-- The tail of the `Has*` functions applied to a resolution with a nil sleeper meets the
contract of C10. -/
theorem hasResult_contract (env : Remote) (p : Page) (fuel : Nat) (thisID js : String)
    (params : List Arg) (log : Log) :
    HasContract env p fuel thisID js params log
      (hasResult (p.ElementByJSE env (fuel + 1) none thisID js params log)) := by
  unfold HasContract
  rw [elementByJSE_single_attempt]
  cases hev : env.evalE (evalCount log) false thisID js params with
  | error e =>
    refine ⟨?_, ?_, none, some e, rfl, ?_, ?_, ?_, ?_⟩
    · simp only [hasResult]; split <;> rfl
    · simp only [hasResult]
      split <;> simp [evalCount_traceEnd, evalCount_append, evalCount_traceBegin] <;>
        simp [evalCount, Event.isEval]
    · simp only [hasResult]; split <;> simp
    · simp only [hasResult]
      split
      · simp_all
      · simp_all
    · simp
    · intro _ hne
      simp [hasResult, hne]
  | ok v =>
    cases hn : v.isNull with
    | true =>
      have hnode : v.subtype ≠ "node" := by
        have := (isNull_iff v).1 hn
        rw [this.2]; decide
      simp only [hn, ↓reduceIte]
      refine ⟨?_, ?_, none, some (.rod .ErrElementNotFound (.js js)), ?_, ?_, ?_, ?_, ?_⟩
      · simp [hasResult, IsError]
      · simp [hasResult, IsError, evalCount_traceEnd, evalCount_append,
          evalCount_traceBegin]
        simp [evalCount, Event.isEval]
      · simp
      · simp [hasResult, IsError, hnode]
      · simp [hasResult, IsError]
      · intro _
        simp [hasResult, IsError]
      · intro _ hne
        simp [IsError] at hne
    | false =>
      simp only [hn, Bool.false_eq_true, ↓reduceIte]
      by_cases hsub : v.subtype = "node"
      · refine ⟨?_, ?_, some { page := p, ctx := p.ctx, ObjectID := v.objectId }, none,
          ?_, ?_, ?_, ?_, ?_⟩
        · simp [hasResult, IsError, hsub]
        · simp [hasResult, IsError, hsub, evalCount_traceEnd, evalCount_append,
            evalCount_traceBegin]
          simp [evalCount, Event.isEval]
        · simp [hsub]
        · simp [hasResult, IsError, hsub]
        · simp [hasResult, IsError, hsub]
        · intro ⟨w, hw, _, h2⟩
          cases hw
          rw [hsub] at h2
          exact absurd h2 (by decide)
        · intro hne
          exact absurd rfl hne
      · refine ⟨?_, ?_, none, some (.rod .ErrExpectElement (.raw v.raw)), ?_, ?_, ?_, ?_, ?_⟩
        · simp [hasResult, IsError, hsub]
        · simp [hasResult, IsError, hsub, evalCount_traceEnd, evalCount_append,
            evalCount_traceBegin]
          simp [evalCount, Event.isEval]
        · simp [hsub]
        · simp [hasResult, IsError, hsub]
        · simp [hasResult, IsError, hsub]
        · intro ⟨w, hw, h1, h2⟩
          cases hw
          have := (isNull_iff v).2 ⟨h1, h2⟩
          rw [hn] at this
          exact absurd this (by decide)
        · intro _ _
          simp [hasResult, IsError, hsub]

/-- C10: each of `Page.HasE`, `Page.HasXE`, `Page.HasMatchesE` and the three `Element`
variants resolves with a nil sleeper, makes exactly one evaluation and no request of its own,
and returns `(true, nil)` exactly when that evaluation answers a node, `(false, nil)` exactly
when the resolution's error is `ErrElementNotFound` (as it is when the evaluation answers
null), and `(false, err)` with the resolution's error in every other case. -/
theorem has_contract (env : Remote) (p : Page) (el : Element) (fuel : Nat)
    (selector regex : String) (log : Log) :
    HasContract env p fuel "" (p.jsFn "element") [.str selector] log
        (p.HasE env (fuel + 1) selector log)
    ∧ HasContract env p fuel "" (p.jsFn "elementX") [.str selector] log
        (p.HasXE env (fuel + 1) selector log)
    ∧ HasContract env p fuel "" (p.jsFn "elementMatches") [.str selector, .str regex] log
        (p.HasMatchesE env (fuel + 1) selector regex log)
    ∧ HasContract env el.page fuel el.ObjectID (el.page.jsFn "element") [.str selector] log
        (el.HasE env (fuel + 1) selector log)
    ∧ HasContract env el.page fuel el.ObjectID (el.page.jsFn "elementX") [.str selector] log
        (el.HasXE env (fuel + 1) selector log)
    ∧ HasContract env el.page fuel el.ObjectID (el.page.jsFn "elementMatches")
        [.str selector, .str regex] log (el.HasMatchesE env (fuel + 1) selector regex log) :=
  ⟨hasResult_contract env p fuel _ _ _ log, hasResult_contract env p fuel _ _ _ log,
    hasResult_contract env p fuel _ _ _ log, hasResult_contract env el.page fuel _ _ _ log,
    hasResult_contract env el.page fuel _ _ _ log,
    hasResult_contract env el.page fuel _ _ _ log⟩

/-! ## Derived queries and the receiver -/

theorem evalScopes_append (a b : Log) : evalScopes (a ++ b) = evalScopes a ++ evalScopes b := by
  induction a with
  | nil => rfl
  | cons e rest ih => cases e <;> simp [evalScopes, ih]

theorem evalScopes_traceBegin (p : Page) (js : String) (params : List Arg) (log : Log) :
    evalScopes (traceBegin p js params log) = evalScopes log := by
  unfold traceBegin
  split <;> simp [evalScopes_append, evalScopes]

theorem evalScopes_traceEnd (p : Page) (log : Log) :
    evalScopes (traceEnd p log) = evalScopes log := by
  unfold traceEnd
  split <;> simp [evalScopes_append, evalScopes]

/-- A resolution with a nil sleeper makes one evaluation, in the scope of `thisID`. -/
theorem elementByJSE_nil_scopes (env : Remote) (p : Page) (fuel : Nat)
    (thisID js : String) (params : List Arg) (log : Log) :
    evalScopes (p.ElementByJSE env (fuel + 1) none thisID js params log).2
      = evalScopes log ++ [scriptScope thisID] := by
  rw [elementByJSE_single_attempt]
  cases env.evalE (evalCount log) false thisID js params with
  | error e => simp [evalScopes_traceEnd, evalScopes_append, evalScopes_traceBegin, evalScopes]
  | ok v =>
    simp only
    split
    · simp [evalScopes_traceEnd, evalScopes_append, evalScopes_traceBegin, evalScopes]
    · split <;>
        simp [evalScopes_traceEnd, evalScopes_append, evalScopes_traceBegin, evalScopes]

/-- A bulk resolution makes one evaluation, in the scope of `thisID`. -/
theorem elementsByJSE_scopes (env : Remote) (p : Page) (thisID js : String)
    (params : List Arg) (log : Log) :
    evalScopes (p.ElementsByJSE env thisID js params log).2
      = evalScopes log ++ [scriptScope thisID] := by
  cases hev : env.evalE (evalCount log) false thisID js params with
  | error e => simp [Page.ElementsByJSE, Page.EvalE, hev, evalScopes_append, evalScopes]
  | ok v =>
    by_cases harr : v.subtype = "array"
    · cases hcall : env.callE (callCount (log ++ [Event.eval false thisID js params (.ok v)]))
          "Runtime.getProperties" [("objectId", .str v.objectId), ("ownProperties", .bool true)]
        with
      | error e =>
        simp [Page.ElementsByJSE, Page.EvalE, Page.CallE, Page.ReleaseE, hev, harr, hcall,
          evalScopes_append, evalScopes]
      | ok list =>
        cases hcol : collectElements p list.result [] <;>
          simp [Page.ElementsByJSE, Page.EvalE, Page.CallE, Page.ReleaseE, hev, harr, hcall,
            hcol, evalScopes_append, evalScopes]
    · simp [Page.ElementsByJSE, Page.EvalE, hev, harr, evalScopes_append, evalScopes]

/-- C8 as stated fails: on the element with the empty `ObjectID`, `Element.ElementE` does
not fail; its one evaluation runs in the window scope and the node found there is returned
with a nil error. -/
theorem derived_query_on_empty_id_uses_window :
    (emptyElement.ElementE (remoteAfter 0 (.ok (nodeObject "n1"))) 1 "div" []).1
        = .ret (some { page := plainPage, ctx := 0, ObjectID := "n1" }, none)
    ∧ evalScopes (emptyElement.ElementE (remoteAfter 0 (.ok (nodeObject "n1"))) 1 "div" []).2
        = [Scope.window] := by
  constructor
  · rfl
  · rfl

/-! ## Bulk resolution -/

theorem collectElements_ok (p : Page) (props : List Property) :
    ∀ acc : List Element,
      (∀ obj ∈ props, obj.isMember = true → obj.value.subtype = "node") →
      collectElements p props acc
        = .ok (acc ++ (props.filter Property.isMember).map fun obj =>
            { page := p, ctx := p.ctx, ObjectID := obj.value.objectId }) := by
  induction props with
  | nil => intro acc _; simp [collectElements]
  | cons obj rest ih =>
    intro acc h
    have hrest : ∀ o ∈ rest, o.isMember = true → o.value.subtype = "node" :=
      fun o ho => h o (List.mem_cons_of_mem _ ho)
    by_cases hm : obj.isMember = true
    · have hnode := h obj (List.mem_cons_self _ _) hm
      have hname : (obj.name == "__proto__" || obj.name == "length") = false := by
        simpa [Property.isMember] using hm
      rw [collectElements, hname]
      simp only [Bool.false_eq_true, ↓reduceIte, hnode, bne_self_eq_false]
      rw [ih _ hrest]
      simp [List.filter_cons, hm]
    · have hname : (obj.name == "__proto__" || obj.name == "length") = true := by
        cases hb : (obj.name == "__proto__" || obj.name == "length") with
        | true => rfl
        | false => exact absurd (by simp [Property.isMember, hb]) hm
      rw [collectElements, hname]
      simp only [↓reduceIte]
      rw [ih _ hrest]
      simp [List.filter_cons, hm]

theorem collectElements_error (p : Page) (props : List Property) :
    ∀ acc : List Element,
      (∃ obj ∈ props, obj.isMember = true ∧ obj.value.subtype ≠ "node") →
      ∃ bad, bad.subtype ≠ "node" ∧ collectElements p props acc = .error bad := by
  induction props with
  | nil => intro acc h; obtain ⟨_, hmem, _⟩ := h; cases hmem
  | cons obj rest ih =>
    intro acc h
    by_cases hm : obj.isMember = true
    · have hname : (obj.name == "__proto__" || obj.name == "length") = false := by
        simpa [Property.isMember] using hm
      by_cases hnode : obj.value.subtype = "node"
      · have hrest : ∃ o ∈ rest, o.isMember = true ∧ o.value.subtype ≠ "node" := by
          obtain ⟨o, hmem, hom, hon⟩ := h
          rcases List.mem_cons.1 hmem with rfl | hmem
          · exact absurd hnode hon
          · exact ⟨o, hmem, hom, hon⟩
        rw [collectElements, hname]
        simp only [Bool.false_eq_true, ↓reduceIte, hnode, bne_self_eq_false]
        exact ih _ hrest
      · refine ⟨obj.value, hnode, ?_⟩
        rw [collectElements, hname]
        simp [hnode]
    · have hname : (obj.name == "__proto__" || obj.name == "length") = true := by
        cases hb : (obj.name == "__proto__" || obj.name == "length") with
        | true => rfl
        | false => exact absurd (by simp [Property.isMember, hb]) hm
      have hrest : ∃ o ∈ rest, o.isMember = true ∧ o.value.subtype ≠ "node" := by
        obtain ⟨o, hmem, hom, hon⟩ := h
        rcases List.mem_cons.1 hmem with rfl | hmem
        · exact absurd hom hm
        · exact ⟨o, hmem, hom, hon⟩
      rw [collectElements, hname]
      simp only [↓reduceIte]
      exact ih _ hrest

/-- On an array-typed evaluation result `ElementsByJSE` enumerates the properties, and its
last request, on every exit, is the release of the array. -/
theorem elementsByJSE_array (env : Remote) (p : Page) (thisID js : String)
    (params : List Arg) (log : Log) (val : RemoteObject)
    (hev : env.evalE (evalCount log) false thisID js params = .ok val)
    (harr : val.subtype = "array") :
    p.ElementsByJSE env thisID js params log
      = ((match env.callE (callCount log) "Runtime.getProperties"
            [("objectId", .str val.objectId), ("ownProperties", .bool true)] with
          | .error _ => .panic "kit.E: Runtime.getProperties failed"
          | .ok list =>
            match collectElements p list.result [] with
            | .error bad => .ret (none, some (.rod .ErrExpectElements (.value bad)))
            | .ok elemList => .ret (some elemList, none)),
        log ++ [Event.eval false thisID js params (.ok val),
          Event.call "Runtime.getProperties"
            [("objectId", .str val.objectId), ("ownProperties", .bool true)]
            (env.callE (callCount log) "Runtime.getProperties"
              [("objectId", .str val.objectId), ("ownProperties", .bool true)]),
          Event.release val.objectId (env.releaseE (releaseCount log) val.objectId)]) := by
  have hc : callCount (log ++ [Event.eval false thisID js params (.ok val)])
      = callCount log := by
    simp [callCount, List.countP_append, Event.isCall]
  have hr : ∀ res, releaseCount (log ++ [Event.eval false thisID js params (.ok val),
        Event.call "Runtime.getProperties"
            [("objectId", .str val.objectId), ("ownProperties", .bool true)] res])
      = releaseCount log := by
    intro res
    simp [releaseCount, List.countP_append, Event.isRelease]
  cases hcall : env.callE (callCount log) "Runtime.getProperties"
      [("objectId", .str val.objectId), ("ownProperties", .bool true)] with
  | error e =>
    simp [Page.ElementsByJSE, Page.EvalE, Page.CallE, Page.ReleaseE, hev, harr, hc, hcall, hr]
  | ok list =>
    cases hcol : collectElements p list.result [] <;>
      simp [Page.ElementsByJSE, Page.EvalE, Page.CallE, Page.ReleaseE, hev, harr, hc, hcall,
        hcol, hr]

/-- C6: when the evaluation of `Page.ElementsByJSE` answers an array-typed value with object
id `a`, the array is released exactly once, as the last request of the call, on every exit;
if an enumerated property other than "__proto__" and "length" has a value whose subtype is
not "node" the call returns no elements and an `ErrExpectElements` error, and if all of them
are nodes it returns elements and a nil error. -/
theorem elementsByJSE_releases_array (env : Remote) (p : Page) (thisID js : String)
    (params : List Arg) (log : Log) (val : RemoteObject)
    (hev : env.evalE (evalCount log) false thisID js params = .ok val)
    (harr : val.subtype = "array") :
    releasesOf val.objectId (p.ElementsByJSE env thisID js params log).2
        = releasesOf val.objectId log + 1
    ∧ releaseCount (p.ElementsByJSE env thisID js params log).2 = releaseCount log + 1
    ∧ (∃ pre res, (p.ElementsByJSE env thisID js params log).2
        = log ++ pre ++ [Event.release val.objectId res] ∧ releaseCount pre = 0)
    ∧ ∀ list, env.callE (callCount log) "Runtime.getProperties"
          [("objectId", .str val.objectId), ("ownProperties", .bool true)] = .ok list →
        ((∃ obj ∈ list.result, obj.name ≠ "__proto__" ∧ obj.name ≠ "length"
            ∧ obj.value.subtype ≠ "node") →
          ∃ bad, bad.subtype ≠ "node" ∧ (p.ElementsByJSE env thisID js params log).1
            = .ret (none, some (.rod .ErrExpectElements (.value bad))))
        ∧ ((∀ obj ∈ list.result, obj.name ≠ "__proto__" → obj.name ≠ "length" →
            obj.value.subtype = "node") →
          ∃ els, (p.ElementsByJSE env thisID js params log).1 = .ret (some els, none)) := by
  rw [elementsByJSE_array env p thisID js params log val hev harr]
  refine ⟨?_, ?_, ⟨[Event.eval false thisID js params (.ok val),
      Event.call "Runtime.getProperties"
        [("objectId", .str val.objectId), ("ownProperties", .bool true)]
        (env.callE (callCount log) "Runtime.getProperties"
          [("objectId", .str val.objectId), ("ownProperties", .bool true)])],
      env.releaseE (releaseCount log) val.objectId, ?_, ?_⟩, ?_⟩
  · simp [releasesOf, List.countP_append, List.countP_cons]
  · simp [releaseCount, List.countP_append, List.countP_cons, Event.isRelease]
  · simp
  · simp [releaseCount, List.countP_cons, Event.isRelease]
  · intro list hcall
    simp only [hcall]
    constructor
    · intro ⟨obj, hmem, h1, h2, h3⟩
      obtain ⟨bad, hbad, hcol⟩ := collectElements_error p list.result []
        ⟨obj, hmem, by simp [Property.isMember, h1, h2], h3⟩
      exact ⟨bad, hbad, by rw [hcol]⟩
    · intro hall
      rw [collectElements_ok p list.result [] (fun obj hmem hm => by
        have hm1 : obj.name ≠ "__proto__" ∧ obj.name ≠ "length" := by
          simpa [Property.isMember] using hm
        exact hall obj hmem hm1.1 hm1.2)]
      exact ⟨_, rfl⟩

/-- C7: when the evaluation of `Page.ElementsByJSE` answers an array-typed value and every
enumerated property other than "__proto__" and "length" has a node-typed value, the call
returns, with a nil error, one element per remaining property, in the same order, each with
the `ObjectID` of that property's value, after exactly one evaluation. -/
theorem elementsByJSE_members (env : Remote) (p : Page) (thisID js : String)
    (params : List Arg) (log : Log) (val : RemoteObject) (list : CallResult)
    (hev : env.evalE (evalCount log) false thisID js params = .ok val)
    (harr : val.subtype = "array")
    (hcall : env.callE (callCount log) "Runtime.getProperties"
      [("objectId", .str val.objectId), ("ownProperties", .bool true)] = .ok list)
    (hall : ∀ obj ∈ list.result, obj.name ≠ "__proto__" → obj.name ≠ "length" →
      obj.value.subtype = "node") :
    (p.ElementsByJSE env thisID js params log).1
      = .ret (some ((list.result.filter
            fun obj => !(obj.name == "__proto__" || obj.name == "length")).map
          fun obj => { page := p, ctx := p.ctx, ObjectID := obj.value.objectId }), none)
    ∧ evalCount (p.ElementsByJSE env thisID js params log).2 = evalCount log + 1 := by
  rw [elementsByJSE_array env p thisID js params log val hev harr]
  constructor
  · simp only [hcall]
    rw [collectElements_ok p list.result [] (fun obj hmem hm => by
      have hm1 : obj.name ≠ "__proto__" ∧ obj.name ≠ "length" := by
        simpa [Property.isMember] using hm
      exact hall obj hmem hm1.1 hm1.2)]
    rfl
  · simp [evalCount, List.countP_append, List.countP_cons, Event.isEval]

/-! ## Search sessions -/

/-- The `DOM.performSearch` request of `SearchE` with its answer. -/
theorem searchFn_poll (env : Remote) (p : Page) (query : String) (deep : Bool)
    (st : Option Search) (log : Log)
    (hcalls : ∀ k method params, ∃ h, env.callE k method params = .ok h) :
    ∃ h res, env.callE (callCount log) "DOM.performSearch"
        [("query", .str query), ("includeUserAgentShadowDOM", .bool deep)] = .ok h
      ∧ searchFn env p query deep st log
        = if h.resultCount = 0 then
            ((false, none), some { page := p, handler := h },
              log ++ [Event.call "DOM.performSearch"
                  [("query", .str query), ("includeUserAgentShadowDOM", .bool deep)] (.ok h),
                Event.call "DOM.discardSearchResults" [("searchId", .str h.searchId)] res])
          else
            ((true, none), some { page := p, handler := h },
              log ++ [Event.call "DOM.performSearch"
                  [("query", .str query), ("includeUserAgentShadowDOM", .bool deep)]
                  (.ok h)]) := by
  obtain ⟨h, hh⟩ := hcalls (callCount log) "DOM.performSearch"
    [("query", .str query), ("includeUserAgentShadowDOM", .bool deep)]
  obtain ⟨h2, hh2⟩ := hcalls (callCount (log ++ [Event.call "DOM.performSearch"
      [("query", .str query), ("includeUserAgentShadowDOM", .bool deep)] (.ok h)]))
    "DOM.discardSearchResults" [("searchId", .str h.searchId)]
  refine ⟨h, .ok h2, hh, ?_⟩
  by_cases hz : h.resultCount = 0
  · simp [searchFn, Page.CallE, hh, Search.Count, Search.ReleaseE, hz, hh2]
  · simp [searchFn, Page.CallE, hh, Search.Count, hz]

theorem releasedInOrder_zero_poll (log : Log) (params : List (String × Arg))
    (h : CallResult) (res : Except GoError CallResult) (hz : h.resultCount = 0)
    (hinv : discards log = zeroPolls log ∧ releasedInOrder log) :
    discards (log ++ [Event.call "DOM.performSearch" params (.ok h),
        Event.call "DOM.discardSearchResults" [("searchId", .str h.searchId)] res])
      = zeroPolls (log ++ [Event.call "DOM.performSearch" params (.ok h),
        Event.call "DOM.discardSearchResults" [("searchId", .str h.searchId)] res])
    ∧ releasedInOrder (log ++ [Event.call "DOM.performSearch" params (.ok h),
        Event.call "DOM.discardSearchResults" [("searchId", .str h.searchId)] res]) := by
  obtain ⟨hc, ho⟩ := hinv
  constructor
  · cases res <;>
      simp [discards, zeroPolls, List.countP_append, List.countP_cons, Event.isDiscard,
        Event.isZeroPoll, hz] <;>
      simpa [discards, zeroPolls] using hc
  · unfold releasedInOrder at ho ⊢
    rw [List.foldl_append, ho]
    simp [searchStep, hz]

theorem releasedInOrder_found_poll (log : Log) (params : List (String × Arg))
    (h : CallResult) (hz : h.resultCount ≠ 0)
    (hinv : discards log = zeroPolls log ∧ releasedInOrder log) :
    discards (log ++ [Event.call "DOM.performSearch" params (.ok h)])
      = zeroPolls (log ++ [Event.call "DOM.performSearch" params (.ok h)])
    ∧ releasedInOrder (log ++ [Event.call "DOM.performSearch" params (.ok h)]) := by
  obtain ⟨hc, ho⟩ := hinv
  constructor
  · simp [discards, zeroPolls, List.countP_append, List.countP_cons, Event.isDiscard,
      Event.isZeroPoll, hz]
    simpa [discards, zeroPolls] using hc
  · unfold releasedInOrder at ho ⊢
    rw [List.foldl_append, ho]
    simp [searchStep, hz]

theorem releasedInOrder_sleep (log : Log) (k : Nat) (res : Option GoError)
    (hinv : discards log = zeroPolls log ∧ releasedInOrder log) :
    discards (log ++ [Event.sleep k res]) = zeroPolls (log ++ [Event.sleep k res])
    ∧ releasedInOrder (log ++ [Event.sleep k res]) := by
  obtain ⟨hc, ho⟩ := hinv
  constructor
  · simp [discards, zeroPolls, List.countP_append, List.countP_cons, Event.isDiscard,
      Event.isZeroPoll]
    simpa [discards, zeroPolls] using hc
  · unfold releasedInOrder at ho ⊢
    rw [List.foldl_append, ho]
    simp [searchStep]

/-- The loop of `SearchE` keeps the release discipline, whatever the fuel and the sleeper;
when it ends without error the captured search has a non-zero count and its poll is the last
request. -/
theorem retryLoop_search_invariant (env : Remote) (p : Page) (query : String) (deep : Bool)
    (sleeper : Option Sleeper)
    (hcalls : ∀ k method params, ∃ h, env.callE k method params = .ok h) (fuel : Nat) :
    ∀ (k : Nat) (st : Option Search) (log : Log),
      (discards log = zeroPolls log ∧ releasedInOrder log) →
      (discards (RetryLoop sleeper (searchFn env p query deep) fuel k st log).2.2
          = zeroPolls (RetryLoop sleeper (searchFn env p query deep) fuel k st log).2.2
        ∧ releasedInOrder (RetryLoop sleeper (searchFn env p query deep) fuel k st log).2.2)
      ∧ ((RetryLoop sleeper (searchFn env p query deep) fuel k st log).1 = .ret none →
          ∃ s pre, (RetryLoop sleeper (searchFn env p query deep) fuel k st log).2.1 = some s
            ∧ s.Count ≠ 0
            ∧ (RetryLoop sleeper (searchFn env p query deep) fuel k st log).2.2
              = pre ++ [Event.call "DOM.performSearch"
                  [("query", .str query), ("includeUserAgentShadowDOM", .bool deep)]
                  (.ok s.handler)]) := by
  induction fuel with
  | zero =>
    intro k st log hinv
    exact ⟨hinv, by simp [RetryLoop]⟩
  | succ fuel ih =>
    intro k st log hinv
    obtain ⟨h, res, -, hfn⟩ := searchFn_poll env p query deep st log hcalls
    by_cases hz : h.resultCount = 0
    · rw [if_pos hz] at hfn
      have hinv1 := releasedInOrder_zero_poll log
        [("query", .str query), ("includeUserAgentShadowDOM", .bool deep)] h res hz hinv
      cases sleeper with
      | none =>
        simp only [RetryLoop, hfn]
        exact ⟨hinv1, by simp⟩
      | some sl =>
        cases hs : sl k with
        | some e =>
          simp only [RetryLoop, hfn, hs]
          exact ⟨releasedInOrder_sleep _ k (some e) hinv1, by simp⟩
        | none =>
          simp only [RetryLoop, hfn, hs]
          exact ih (k + 1) _ _ (releasedInOrder_sleep _ k none hinv1)
    · rw [if_neg hz] at hfn
      have hinv1 := releasedInOrder_found_poll log
        [("query", .str query), ("includeUserAgentShadowDOM", .bool deep)] h hz hinv
      simp only [RetryLoop, hfn]
      exact ⟨hinv1, fun _ => ⟨{ page := p, handler := h }, log, rfl, hz, rfl⟩⟩

/-- C5: in every run of `Page.SearchE` in which the remote calls succeed, whatever the
sleeper and however long the run, the number of `DOM.discardSearchResults` requests equals
the number of `DOM.performSearch` polls answered with `resultCount` 0, every such poll is
followed by the discard of its own `searchId` before the next poll and no other discard is
issued, and a `Search` returned without error has a non-zero `Count` and its poll is the last
request of the run, so it has not been released. -/
theorem searchE_release_discipline (env : Remote) (p : Page) (fuel : Nat)
    (sleeper : Option Sleeper) (query : String) (deep : Bool)
    (hcalls : ∀ k method params, ∃ h, env.callE k method params = .ok h) :
    discards (p.SearchE env fuel sleeper query deep []).2
        = zeroPolls (p.SearchE env fuel sleeper query deep []).2
    ∧ releasedInOrder (p.SearchE env fuel sleeper query deep []).2
    ∧ ∀ os, (p.SearchE env fuel sleeper query deep []).1 = .ret (os, none) →
        ∃ s pre, os = some s ∧ s.Count ≠ 0
          ∧ (p.SearchE env fuel sleeper query deep []).2
            = pre ++ [Event.call "DOM.performSearch"
                [("query", .str query), ("includeUserAgentShadowDOM", .bool deep)]
                (.ok s.handler)] := by
  obtain ⟨h0, hh0⟩ := hcalls (callCount [Event.waitLoad]) "DOM.getDocument" []
  have hinv0 : discards [Event.waitLoad, Event.call "DOM.getDocument" [] (.ok h0)]
        = zeroPolls [Event.waitLoad, Event.call "DOM.getDocument" [] (.ok h0)]
      ∧ releasedInOrder [Event.waitLoad, Event.call "DOM.getDocument" [] (.ok h0)] := by
    constructor
    · simp [discards, zeroPolls, Event.isDiscard, Event.isZeroPoll]
    · simp [releasedInOrder, searchStep]
  have hloop := retryLoop_search_invariant env p query deep sleeper hcalls fuel 0 none
    [Event.waitLoad, Event.call "DOM.getDocument" [] (.ok h0)] hinv0
  have hrun : p.SearchE env fuel sleeper query deep []
      = match RetryLoop sleeper (searchFn env p query deep) fuel 0 none
          [Event.waitLoad, Event.call "DOM.getDocument" [] (.ok h0)] with
        | (.fuelOut, _, log2) => (.fuelOut, log2)
        | (.panic m, _, log2) => (.panic m, log2)
        | (.ret (some err), _, log2) => (.ret (none, some err), log2)
        | (.ret none, s, log2) => (.ret (s, none), log2) := by
    simp [Page.SearchE, Page.WaitLoad, Page.CallE, hh0, Retry]
  rw [hrun]
  generalize RetryLoop sleeper (searchFn env p query deep) fuel 0 none
    [Event.waitLoad, Event.call "DOM.getDocument" [] (.ok h0)] = r at hloop
  obtain ⟨out, st, log2⟩ := r
  obtain ⟨⟨hc, ho⟩, hret⟩ := hloop
  cases out with
  | fuelOut => exact ⟨hc, ho, by simp⟩
  | panic m => exact ⟨hc, ho, by simp⟩
  | ret err =>
    cases err with
    | some e => exact ⟨hc, ho, by simp⟩
    | none =>
      refine ⟨hc, ho, ?_⟩
      intro os hos
      obtain ⟨s, pre, hs, hcount, hlog⟩ := hret rfl
      simp only at hs hlog hos
      refine ⟨s, pre, ?_, hcount, hlog⟩
      simp only [Outcome.ret.injEq, Prod.mk.injEq, and_true] at hos
      rw [← hos, hs]

/-! ## The statements at concrete inputs -/

theorem elementByJSE_nil_sleeper_null_witness :
    tracedPage.ElementByJSE (remoteAfter 1 (.ok (nodeObject "n1"))) 1 none "" "() => null"
        [] []
      = (.ret (none, some (.rod .ErrElementNotFound (.js "() => null"))),
          traceEnd tracedPage (traceBegin tracedPage "() => null" [] []
            ++ [Event.eval false "" "() => null" [] (.ok nullObject),
                Event.sleep 0 (some (.rod .ErrElementNotFound (.js "() => null")))]))
    ∧ evalCount (tracedPage.ElementByJSE (remoteAfter 1 (.ok (nodeObject "n1"))) 1 none ""
        "() => null" [] []).2 = evalCount [] + 1 :=
  elementByJSE_nil_sleeper_null (remoteAfter 1 (.ok (nodeObject "n1"))) tracedPage ""
    "() => null" [] [] nullObject 0 rfl rfl rfl

theorem elementByJSE_node_after_nulls_witness :
    ∃ mid, evalCount mid = 2 ∧ sleepCount mid = 2 ∧
      tracedPage.ElementByJSE (remoteAfter 2 (.ok (nodeObject "n7"))) 3 (some alwaysSleeper)
          "" "f" [] []
        = (.ret (some { page := tracedPage, ctx := tracedPage.ctx, ObjectID := "n7" }, none),
            traceEnd tracedPage (traceBegin tracedPage "f" [] [] ++ mid
              ++ [Event.eval false "" "f" [] (.ok (nodeObject "n7"))]))
      ∧ evalCount (tracedPage.ElementByJSE (remoteAfter 2 (.ok (nodeObject "n7"))) 3
          (some alwaysSleeper) "" "f" [] []).2 = evalCount [] + (2 + 1)
      ∧ sleepCount (tracedPage.ElementByJSE (remoteAfter 2 (.ok (nodeObject "n7"))) 3
          (some alwaysSleeper) "" "f" [] []).2 = sleepCount [] + 2 :=
  (elementByJSE_node_after_nulls (remoteAfter 2 (.ok (nodeObject "n7"))) tracedPage
    (some alwaysSleeper) "" "f" [] [] 2 (nodeObject "n7") "n7"
    (fun j hj => ⟨nullObject, by interval_cases j <;> rfl, rfl, rfl⟩)
    (fun _ _ => rfl) rfl rfl rfl).2 3 (by decide)

theorem elementByJSE_expect_element_witness :
    ∃ mid, evalCount mid = 1 ∧ sleepCount mid = 1 ∧
      plainPage.ElementByJSE (remoteAfter 1 (.ok numberObject)) 2 (some alwaysSleeper)
          "" "() => 1" [] []
        = (.ret (none, some (.rod .ErrExpectElement (.raw numberObject.raw))),
            traceEnd plainPage (traceBegin plainPage "() => 1" [] [] ++ mid
              ++ [Event.eval false "" "() => 1" [] (.ok numberObject)]))
      ∧ evalCount (plainPage.ElementByJSE (remoteAfter 1 (.ok numberObject)) 2
          (some alwaysSleeper) "" "() => 1" [] []).2 = evalCount [] + (1 + 1)
      ∧ sleepCount (plainPage.ElementByJSE (remoteAfter 1 (.ok numberObject)) 2
          (some alwaysSleeper) "" "() => 1" [] []).2 = sleepCount [] + 1 :=
  elementByJSE_expect_element (remoteAfter 1 (.ok numberObject)) plainPage
    (some alwaysSleeper) "" "() => 1" [] [] 1 numberObject
    (fun j hj => ⟨nullObject, by interval_cases j; rfl, rfl, rfl⟩)
    (fun _ _ => rfl) rfl (by decide) (by decide) 2 (by decide)

theorem elementByJSE_first_error_witness :
    ∃ mid last, evalCount mid = 1 ∧ sleepCount mid = 1 ∧
      (last = [Event.eval false "" "f" [] (.error (.foreign "context canceled"))]
        ∨ ∃ w, last = [Event.eval false "" "f" [] (.ok w),
            Event.sleep 1 (some (.foreign "context canceled"))]) ∧
      plainPage.ElementByJSE (remoteAfter 5 (.ok (nodeObject "n1"))) 9
          (some (countSleeper 1 (.foreign "context canceled"))) "" "f" [] []
        = (.ret (none, some (.foreign "context canceled")),
            traceEnd plainPage (traceBegin plainPage "f" [] [] ++ mid ++ last))
      ∧ evalCount (plainPage.ElementByJSE (remoteAfter 5 (.ok (nodeObject "n1"))) 9
          (some (countSleeper 1 (.foreign "context canceled"))) "" "f" [] []).2
          = evalCount [] + (1 + 1) :=
  elementByJSE_first_error (remoteAfter 5 (.ok (nodeObject "n1"))) plainPage
    (countSleeper 1 (.foreign "context canceled")) "" "f" [] [] 1 (.foreign "context canceled")
    (fun j hj => ⟨nullObject, by interval_cases j; rfl, rfl, rfl⟩)
    (fun j hj => by interval_cases j; rfl)
    (Or.inr ⟨⟨nullObject, rfl, rfl, rfl⟩, rfl⟩) 9 (by decide)

theorem searchE_release_discipline_witness :
    discards (plainPage.SearchE (remoteAfter 3 (.ok nullObject)) 5 (some alwaysSleeper)
        "button" true []).2
      = zeroPolls (plainPage.SearchE (remoteAfter 3 (.ok nullObject)) 5 (some alwaysSleeper)
        "button" true []).2
    ∧ releasedInOrder (plainPage.SearchE (remoteAfter 3 (.ok nullObject)) 5
        (some alwaysSleeper) "button" true []).2
    ∧ ∀ os, (plainPage.SearchE (remoteAfter 3 (.ok nullObject)) 5 (some alwaysSleeper)
        "button" true []).1 = .ret (os, none) →
        ∃ s pre, os = some s ∧ s.Count ≠ 0
          ∧ (plainPage.SearchE (remoteAfter 3 (.ok nullObject)) 5 (some alwaysSleeper)
              "button" true []).2
            = pre ++ [Event.call "DOM.performSearch"
                [("query", .str "button"), ("includeUserAgentShadowDOM", .bool true)]
                (.ok s.handler)] :=
  searchE_release_discipline (remoteAfter 3 (.ok nullObject)) plainPage 5
    (some alwaysSleeper) "button" true (fun _ _ _ => ⟨_, rfl⟩)

theorem elementsByJSE_releases_array_witness :
    releasesOf "arr" (plainPage.ElementsByJSE
        (arrayRemote "arr" [⟨"0", nodeObject "n1"⟩, ⟨"1", numberObject⟩,
          ⟨"length", numberObject⟩] false) "" "f" [] []).2 = releasesOf "arr" [] + 1
    ∧ ∃ bad, bad.subtype ≠ "node" ∧ (plainPage.ElementsByJSE
        (arrayRemote "arr" [⟨"0", nodeObject "n1"⟩, ⟨"1", numberObject⟩,
          ⟨"length", numberObject⟩] false) "" "f" [] []).1
        = .ret (none, some (.rod .ErrExpectElements (.value bad))) :=
  ⟨(elementsByJSE_releases_array
      (arrayRemote "arr" [⟨"0", nodeObject "n1"⟩, ⟨"1", numberObject⟩,
        ⟨"length", numberObject⟩] false) plainPage "" "f" [] [] (arrayObject "arr")
      rfl rfl).1,
    ((elementsByJSE_releases_array
      (arrayRemote "arr" [⟨"0", nodeObject "n1"⟩, ⟨"1", numberObject⟩,
        ⟨"length", numberObject⟩] false) plainPage "" "f" [] [] (arrayObject "arr")
      rfl rfl).2.2.2 _ rfl).1
      ⟨⟨"1", numberObject⟩, by simp, by decide, by decide, by decide⟩⟩

theorem elementsByJSE_members_witness :
    (plainPage.ElementsByJSE
        (arrayRemote "arr" [⟨"length", numberObject⟩, ⟨"__proto__", arrayObject "p"⟩] true)
        "form-1" "() => []" [] []).1 = .ret (some [], none)
    ∧ evalCount (plainPage.ElementsByJSE
        (arrayRemote "arr" [⟨"length", numberObject⟩, ⟨"__proto__", arrayObject "p"⟩] true)
        "form-1" "() => []" [] []).2 = evalCount [] + 1 :=
  elementsByJSE_members
    (arrayRemote "arr" [⟨"length", numberObject⟩, ⟨"__proto__", arrayObject "p"⟩] true)
    plainPage "form-1" "() => []" [] [] (arrayObject "arr")
    { searchId := "", resultCount := 0,
      result := [⟨"length", numberObject⟩, ⟨"__proto__", arrayObject "p"⟩] }
    rfl rfl rfl (by
      intro obj hmem h1 h2
      simp only [List.mem_cons, List.mem_singleton, List.not_mem_nil, or_false] at hmem
      rcases hmem with rfl | rfl
      · exact absurd rfl h2
      · exact absurd rfl h1)

end Rod

/-! ## The documented option strings -/

namespace defaults

/-- C9: the first option string of the package documentation, "show,trace,slow,monitor",
makes `parse` panic at `kv[1]` of the valueless "slow", whatever `time.ParseDuration` does
and whatever the variables held before; the second documented string is accepted and sets
`Show`, `Trace`, `Slow` (one second), `Port` and `Monitor` as written. -/
theorem parse_documented_examples :
    (∀ (ParseDuration : String → Except String Int) (o : Options),
      parse ParseDuration o "show,trace,slow,monitor"
        = .panic "index out of range [1] with length 1")
    ∧ parse parseDurationExample initial "show,trace,slow=1s,port=9222,monitor=:9223"
        = .done { Show := true, Trace := true, Slow := 1000000000, Port := "9222",
                  CDP := false, Monitor := ":9223" } :=
  ⟨fun _ _ => rfl, by decide⟩

end defaults

/-! ## The answer of the release -/

namespace Rod

/-- C11: when the evaluation of `Page.ElementsByJSE` answers an array-typed value, the
returned pair does not depend on how the release of the array is answered: it is the same
for every release behaviour of the remote side; in particular when every enumerated property
other than "__proto__" and "length" is a node and the release fails with `e`, the failed
release is the last request and the call still returns the full element list with a nil
error. -/
theorem elementsByJSE_release_outcome_ignored (env : Remote) (p : Page) (thisID js : String)
    (params : List Arg) (log : Log) (val : RemoteObject)
    (hev : env.evalE (evalCount log) false thisID js params = .ok val)
    (harr : val.subtype = "array") :
    (∀ releaseE : Nat → String → Option GoError,
      (p.ElementsByJSE { env with releaseE := releaseE } thisID js params log).1
        = (p.ElementsByJSE env thisID js params log).1)
    ∧ ∀ list e, env.callE (callCount log) "Runtime.getProperties"
          [("objectId", .str val.objectId), ("ownProperties", .bool true)] = .ok list →
        (∀ obj ∈ list.result, obj.name ≠ "__proto__" → obj.name ≠ "length" →
          obj.value.subtype = "node") →
        env.releaseE (releaseCount log) val.objectId = some e →
        p.ElementsByJSE env thisID js params log
          = (.ret (some ((list.result.filter
                fun obj => !(obj.name == "__proto__" || obj.name == "length")).map
              fun obj => { page := p, ctx := p.ctx, ObjectID := obj.value.objectId }), none),
            log ++ [Event.eval false thisID js params (.ok val),
              Event.call "Runtime.getProperties"
                [("objectId", .str val.objectId), ("ownProperties", .bool true)] (.ok list),
              Event.release val.objectId (some e)]) := by
  constructor
  · intro releaseE
    rw [elementsByJSE_array env p thisID js params log val hev harr,
      elementsByJSE_array { env with releaseE := releaseE } p thisID js params log val hev
        harr]
  · intro list e hcall hall hrel
    rw [elementsByJSE_array env p thisID js params log val hev harr]
    simp only [hcall, hrel]
    rw [collectElements_ok p list.result [] (fun obj hmem hm => by
      have hm1 : obj.name ≠ "__proto__" ∧ obj.name ≠ "length" := by
        simpa [Property.isMember] using hm
      exact hall obj hmem hm1.1 hm1.2)]
    rfl

theorem elementsByJSE_release_outcome_ignored_witness :
    (plainPage.ElementsByJSE
        (arrayRemote "arr" [⟨"0", nodeObject "n1"⟩, ⟨"1", nodeObject "n2"⟩,
          ⟨"length", numberObject⟩] false) "" "f" [] []).1
      = (plainPage.ElementsByJSE
        (arrayRemote "arr" [⟨"0", nodeObject "n1"⟩, ⟨"1", nodeObject "n2"⟩,
          ⟨"length", numberObject⟩] true) "" "f" [] []).1
    ∧ plainPage.ElementsByJSE
        (arrayRemote "arr" [⟨"0", nodeObject "n1"⟩, ⟨"1", nodeObject "n2"⟩,
          ⟨"length", numberObject⟩] true) "" "f" [] []
      = (.ret (some [{ page := plainPage, ctx := 0, ObjectID := "n1" },
            { page := plainPage, ctx := 0, ObjectID := "n2" }], none),
          [Event.eval false "" "f" [] (.ok (arrayObject "arr")),
            Event.call "Runtime.getProperties"
              [("objectId", .str "arr"), ("ownProperties", .bool true)]
              (.ok { searchId := "", resultCount := 0,
                     result := [⟨"0", nodeObject "n1"⟩, ⟨"1", nodeObject "n2"⟩,
                       ⟨"length", numberObject⟩] }),
            Event.release "arr" (some (.foreign "gone"))]) :=
  ⟨(elementsByJSE_release_outcome_ignored
      (arrayRemote "arr" [⟨"0", nodeObject "n1"⟩, ⟨"1", nodeObject "n2"⟩,
        ⟨"length", numberObject⟩] true) plainPage "" "f" [] [] (arrayObject "arr")
      rfl rfl).1 (fun _ _ => none),
    (elementsByJSE_release_outcome_ignored
      (arrayRemote "arr" [⟨"0", nodeObject "n1"⟩, ⟨"1", nodeObject "n2"⟩,
        ⟨"length", numberObject⟩] true) plainPage "" "f" [] [] (arrayObject "arr")
      rfl rfl).2 _ (.foreign "gone") rfl (by
        intro obj hmem h1 h2
        simp only [List.mem_cons, List.mem_singleton, List.not_mem_nil, or_false] at hmem
        rcases hmem with rfl | rfl | rfl
        · rfl
        · rfl
        · exact absurd rfl h2) rfl⟩

end Rod

/-! ## Derived queries: receiver and outcome -/

namespace Rod

/-- A single-result resolution with a nil sleeper and receiver `el.ObjectID` meets the
contract of the amended C8. -/
theorem derivedOne_contract (env : Remote) (el : Element) (fuel : Nat) (js : String)
    (params : List Arg) (log : Log) :
    DerivedOneContract env el js params log
      (el.page.ElementByJSE env (fuel + 1) none el.ObjectID js params log) := by
  refine ⟨elementByJSE_nil_scopes env el.page fuel el.ObjectID js params log, ?_, ?_⟩
  · intro e he
    rw [elementByJSE_single_attempt, he]
  · intro v hv
    rw [elementByJSE_single_attempt, hv]
    by_cases hn : v.type = "object" ∧ v.subtype = "null"
    · have hnull : v.isNull = true := (isNull_iff v).2 hn
      simp [hnull, hn]
    · have hnull : v.isNull = false := by
        rw [Bool.eq_false_iff]
        exact fun h => hn ((isNull_iff v).1 h)
      by_cases hsub : v.subtype = "node"
      · simp [hnull, hsub]
      · simp [hnull, hn, hsub]

/-- A bulk resolution with receiver `el.ObjectID` meets the contract of the amended C8. -/
theorem derivedMany_contract (env : Remote) (el : Element) (js : String)
    (params : List Arg) (log : Log) :
    DerivedManyContract env el js params log
      (el.page.ElementsByJSE env el.ObjectID js params log) := by
  refine ⟨elementsByJSE_scopes env el.page el.ObjectID js params log, ?_, ?_, ?_, ?_⟩
  · intro e he
    simp [Page.ElementsByJSE, Page.EvalE, he]
  · intro v hv hsub
    simp [Page.ElementsByJSE, Page.EvalE, hv, hsub]
  · intro v e hv harr hcall
    rw [elementsByJSE_array env el.page el.ObjectID js params log v hv harr]
    simp only [hcall]
  · intro v list hv harr hcall
    rw [elementsByJSE_array env el.page el.ObjectID js params log v hv harr]
    simp only [hcall]
    constructor
    · intro hall
      rw [collectElements_ok el.page list.result [] (fun obj hmem hm => by
        have hm1 : obj.name ≠ "__proto__" ∧ obj.name ≠ "length" := by
          simpa [Property.isMember] using hm
        exact hall obj hmem hm1.1 hm1.2)]
      rfl
    · intro ⟨obj, hmem, h1, h2, h3⟩
      obtain ⟨bad, hbad, hcol⟩ := collectElements_error el.page list.result []
        ⟨obj, hmem, by simp [Property.isMember, h1, h2], h3⟩
      exact ⟨bad, hbad, by rw [hcol]⟩

/-- C8 (amended): every derived query of an element `el` (`ElementE`, `ElementXE`,
`ElementMatchesE`, `ElementByJSE`, `ParentE`, `NextE`, `PreviousE`, `ElementsE`,
`ElementsXE`, `ElementsByJSE`, `ParentsE`) makes exactly one evaluation and passes
`el.ObjectID` as its receiver: the script runs with `el` as `this` when the identifier is not
empty, and in the window scope when it is empty.  In both cases the outcome is fixed by the
answers of the remote side alone: a single-result query returns the element for a node, the
`ErrElementNotFound` error for null, the `ErrExpectElement` error for any other value and
the evaluation's error when it fails; a bulk query returns the evaluation's error, the
`ErrExpectElements` error for a value that is not an array or for a member that is not a
node, and otherwise the list of its members.  No query fails on account of an empty
identifier. -/
theorem derived_queries_receiver (env : Remote) (el : Element) (fuel : Nat)
    (selector regex xpath js : String) (params : List Arg) (log : Log) :
    DerivedOneContract env el (el.page.jsFn "element") [.str selector] log
        (el.ElementE env (fuel + 1) selector log)
    ∧ DerivedOneContract env el (el.page.jsFn "elementX") [.str xpath] log
        (el.ElementXE env (fuel + 1) xpath log)
    ∧ DerivedOneContract env el (el.page.jsFn "elementMatches") [.str selector, .str regex]
        log (el.ElementMatchesE env (fuel + 1) selector regex log)
    ∧ DerivedOneContract env el js params log (el.ElementByJSE env (fuel + 1) js params log)
    ∧ DerivedOneContract env el "() => this.parentElement" [] log
        (el.ParentE env (fuel + 1) log)
    ∧ DerivedOneContract env el "() => this.nextElementSibling" [] log
        (el.NextE env (fuel + 1) log)
    ∧ DerivedOneContract env el "() => this.previousElementSibling" [] log
        (el.PreviousE env (fuel + 1) log)
    ∧ DerivedManyContract env el (el.page.jsFn "elements") [.str selector] log
        (el.ElementsE env selector log)
    ∧ DerivedManyContract env el (el.page.jsFn "elementsX") [.str xpath] log
        (el.ElementsXE env xpath log)
    ∧ DerivedManyContract env el js params log (el.ElementsByJSE env js params log)
    ∧ DerivedManyContract env el (el.page.jsFn "parents") [.str selector] log
        (el.ParentsE env selector log) :=
  ⟨derivedOne_contract env el fuel _ _ log, derivedOne_contract env el fuel _ _ log,
    derivedOne_contract env el fuel _ _ log, derivedOne_contract env el fuel _ _ log,
    derivedOne_contract env el fuel _ _ log, derivedOne_contract env el fuel _ _ log,
    derivedOne_contract env el fuel _ _ log, derivedMany_contract env el _ _ log,
    derivedMany_contract env el _ _ log, derivedMany_contract env el _ _ log,
    derivedMany_contract env el _ _ log⟩

theorem derived_queries_receiver_witness :
    (emptyElement.ParentE (remoteAfter 0 (.ok (nodeObject "n1"))) 1 []).1
        = .ret (some { page := plainPage, ctx := 0, ObjectID := "n1" }, none)
    ∧ evalScopes (emptyElement.ParentE (remoteAfter 0 (.ok (nodeObject "n1"))) 1 []).2
        = [Scope.window]
    ∧ (emptyElement.ParentsE
          (arrayRemote "arr" [⟨"0", nodeObject "n1"⟩, ⟨"length", numberObject⟩] false)
          "div" []).1
        = .ret (some [{ page := plainPage, ctx := 0, ObjectID := "n1" }], none) :=
  ⟨(derived_queries_receiver (remoteAfter 0 (.ok (nodeObject "n1"))) emptyElement 0
      "" "" "" "" [] []).2.2.2.2.1.2.2 (nodeObject "n1") rfl,
    (derived_queries_receiver (remoteAfter 0 (.ok (nodeObject "n1"))) emptyElement 0
      "" "" "" "" [] []).2.2.2.2.1.1,
    ((derived_queries_receiver
      (arrayRemote "arr" [⟨"0", nodeObject "n1"⟩, ⟨"length", numberObject⟩] false)
      emptyElement 0 "div" "" "" "" [] []).2.2.2.2.2.2.2.2.2.2.2.2.2.2 (arrayObject "arr")
        { searchId := "", resultCount := 0,
          result := [⟨"0", nodeObject "n1"⟩, ⟨"length", numberObject⟩] } rfl rfl rfl).1
      (by
        intro obj hmem h1 h2
        simp only [List.mem_cons, List.mem_singleton, List.not_mem_nil, or_false] at hmem
        rcases hmem with rfl | rfl
        · rfl
        · exact absurd rfl h2)⟩

end Rod
